import Mathlib

set_option maxRecDepth 100000

/-!
Verification of the PayU payment-provider plugin (hash engine, session
state machine, webhook reconciler) against its natural-language
specification.  The TypeScript sources `src/providers/payu/client.ts` and
`src/providers/payu/service.ts` are embedded shallowly below: pure
functions become Lean functions, the gateway and the clock are passed in
explicitly, thrown exceptions become `Except`, and JavaScript value
quirks (truthiness of strings, template-literal stringification of
`undefined`) are modelled by small explicitly-named helpers.
-/

namespace Payu

/-! ### SHA-512 (FIPS 180-4)

`client.ts` calls Node's `crypto.createHash("sha512")`.  The primitive is
embedded here byte-for-byte after FIPS 180-4: 64-bit words are `Nat`s
reduced mod `2^64`, messages are UTF-8 byte lists, and the digest is the
usual lowercase hexadecimal string.  The standard test vectors for `""`
and `"abc"` are proved below by evaluation. -/

def w64 : Nat := 18446744073709551616

def rotr64 (n x : Nat) : Nat := ((x >>> n) ||| (x <<< (64 - n))) % w64

def not64 (x : Nat) : Nat := x ^^^ (w64 - 1)

def bsig0 (x : Nat) : Nat := rotr64 28 x ^^^ rotr64 34 x ^^^ rotr64 39 x

def bsig1 (x : Nat) : Nat := rotr64 14 x ^^^ rotr64 18 x ^^^ rotr64 41 x

def ssig0 (x : Nat) : Nat := rotr64 1 x ^^^ rotr64 8 x ^^^ (x >>> 7)

def ssig1 (x : Nat) : Nat := rotr64 19 x ^^^ rotr64 61 x ^^^ (x >>> 6)

def ch64 (x y z : Nat) : Nat := (x &&& y) ^^^ (not64 x &&& z)

def maj64 (x y z : Nat) : Nat := (x &&& y) ^^^ (x &&& z) ^^^ (y &&& z)

def K512 : List Nat := [
  4794697086780616226, 8158064640168781261, 13096744586834688815,
  16840607885511220156, 4131703408338449720, 6480981068601479193,
  10538285296894168987, 12329834152419229976, 15566598209576043074,
  1334009975649890238, 2608012711638119052, 6128411473006802146,
  8268148722764581231, 9286055187155687089, 11230858885718282805,
  13951009754708518548, 16472876342353939154, 17275323862435702243,
  1135362057144423861, 2597628984639134821, 3308224258029322869,
  5365058923640841347, 6679025012923562964, 8573033837759648693,
  10970295158949994411, 12119686244451234320, 12683024718118986047,
  13788192230050041572, 14330467153632333762, 15395433587784984357,
  489312712824947311, 1452737877330783856, 2861767655752347644,
  3322285676063803686, 5560940570517711597, 5996557281743188959,
  7280758554555802590, 8532644243296465576, 9350256976987008742,
  10552545826968843579, 11727347734174303076, 12113106623233404929,
  14000437183269869457, 14369950271660146224, 15101387698204529176,
  15463397548674623760, 17586052441742319658, 1182934255886127544,
  1847814050463011016, 2177327727835720531, 2830643537854262169,
  3796741975233480872, 4115178125766777443, 5681478168544905931,
  6601373596472566643, 7507060721942968483, 8399075790359081724,
  8693463985226723168, 9568029438360202098, 10144078919501101548,
  10430055236837252648, 11840083180663258601, 13761210420658862357,
  14299343276471374635, 14566680578165727644, 15097957966210449927,
  16922976911328602910, 17689382322260857208, 500013540394364858,
  748580250866718886, 1242879168328830382, 1977374033974150939,
  2944078676154940804, 3659926193048069267, 4368137639120453308,
  4836135668995329356, 5532061633213252278, 6448918945643986474,
  6902733635092675308, 7801388544844847127]

def H512 : List Nat := [
  7640891576956012808, 13503953896175478587,
  4354685564936845355, 11912009170470909681,
  5840696475078001361, 11170449401992604703,
  2270897969802886507, 6620516959819538809]

/-- UTF-8 encoding of one code point (Node's default encoding for
`hash.update(string)`). -/
def utf8Char (c : Char) : List Nat :=
  let v := c.toNat
  if v < 0x80 then [v]
  else if v < 0x800 then [0xC0 ||| (v >>> 6), 0x80 ||| (v &&& 0x3F)]
  else if v < 0x10000 then
    [0xE0 ||| (v >>> 12), 0x80 ||| ((v >>> 6) &&& 0x3F), 0x80 ||| (v &&& 0x3F)]
  else
    [0xF0 ||| (v >>> 18), 0x80 ||| ((v >>> 12) &&& 0x3F),
     0x80 ||| ((v >>> 6) &&& 0x3F), 0x80 ||| (v &&& 0x3F)]

def utf8Bytes (l : List Char) : List Nat :=
  l.foldr (fun c acc => utf8Char c ++ acc) []

/-- `n` bytes of `v`, most significant first. -/
def beBytes : Nat → Nat → List Nat
  | 0, _ => []
  | n + 1, v => beBytes n (v >>> 8) ++ [v % 256]

/-- FIPS 180-4 padding: append `0x80`, zero bytes, and the 128-bit
big-endian bit length, to a multiple of 128 bytes. -/
def padBytes (ms : List Nat) : List Nat :=
  ms ++ 0x80 :: List.replicate ((128 - (ms.length + 17) % 128) % 128) 0
     ++ beBytes 16 (8 * ms.length)

def bytesToWords : List Nat → List Nat
  | b0 :: b1 :: b2 :: b3 :: b4 :: b5 :: b6 :: b7 :: rest =>
      (((((((b0 <<< 8 ||| b1) <<< 8 ||| b2) <<< 8 ||| b3) <<< 8 ||| b4)
        <<< 8 ||| b5) <<< 8 ||| b6) <<< 8 ||| b7) :: bytesToWords rest
  | _ => []

/-- Message-schedule extension, keeping the schedule in reverse order so
that `W[t-2]`, `W[t-7]`, `W[t-15]`, `W[t-16]` sit at positions 1, 6, 14,
15 of the accumulator. -/
def schedExtend : Nat → List Nat → List Nat
  | 0, acc => acc
  | n + 1, acc =>
      schedExtend n
        ((ssig1 (acc.getD 1 0) + acc.getD 6 0 + ssig0 (acc.getD 14 0)
          + acc.getD 15 0) % w64 :: acc)

def schedW (block : List Nat) : List Nat :=
  (schedExtend 64 block.reverse).reverse

/-- One SHA-512 round on the state `[a,b,c,d,e,f,g,h]`. -/
def roundStep (st : List Nat) (kw : Nat × Nat) : List Nat :=
  let a := st.getD 0 0
  let b := st.getD 1 0
  let c := st.getD 2 0
  let d := st.getD 3 0
  let e := st.getD 4 0
  let f := st.getD 5 0
  let g := st.getD 6 0
  let h := st.getD 7 0
  let t1 := (h + bsig1 e + ch64 e f g + kw.1 + kw.2) % w64
  let t2 := (bsig0 a + maj64 a b c) % w64
  [(t1 + t2) % w64, a, b, c, (d + t1) % w64, e, f, g]

def processBlock (h : List Nat) (block : List Nat) : List Nat :=
  let st := (K512.zip (schedW block)).foldl roundStep h
  (h.zip st).map (fun p => (p.1 + p.2) % w64)

def blocks512 : List Nat → List (List Nat)
  | w0 :: w1 :: w2 :: w3 :: w4 :: w5 :: w6 :: w7 ::
    w8 :: w9 :: w10 :: w11 :: w12 :: w13 :: w14 :: w15 :: rest =>
      [w0, w1, w2, w3, w4, w5, w6, w7, w8, w9, w10, w11, w12, w13, w14, w15]
        :: blocks512 rest
  | _ => []

def sha512core : List (List Nat) → List Nat → List Nat
  | [], h => h
  | b :: bs, h => sha512core bs (processBlock h b)

def sha512Words (ms : List Nat) : List Nat :=
  sha512core (blocks512 (bytesToWords (padBytes ms))) H512

def hexDigit (d : Nat) : Char :=
  if d < 10 then Char.ofNat (48 + d) else Char.ofNat (87 + d)

def word64Hex (v : Nat) : List Char :=
  (List.range 16).map (fun i => hexDigit ((v >>> (4 * (15 - i))) &&& 15))

/-- Lowercase hexadecimal SHA-512 digest of the UTF-8 bytes of `s`:
the embedding of `crypto.createHash("sha512").update(s).digest("hex")`. -/
def sha512hex (s : String) : String :=
  String.mk ((sha512Words (utf8Bytes s.data)).foldr
    (fun v acc => word64Hex v ++ acc) [])

/-! ### JavaScript value helpers

The TypeScript sources branch on JavaScript truthiness of strings and
string-or-`undefined` values, and interpolate possibly-`undefined`
values into template literals.  These helpers name those semantics:
an absent value is `Option.none`, an empty string is falsy, and a
template literal renders `undefined` as the text `"undefined"`. -/

/-- JS truthiness of a `string | undefined` value: `undefined` and `""`
are falsy. -/
def jsTruthy : Option String → Bool
  | none => false
  | some s => !(s == "")

/-- `a || b` on `string | undefined` values. -/
def jsOrElse (a b : Option String) : Option String :=
  if jsTruthy a then a else b

/-- `x || ""`. -/
def jsGetD (o : Option String) : String := o.getD ""

/-- Template-literal stringification of a `string | undefined` value:
JavaScript renders `undefined` as the literal text `"undefined"`. -/
def jsTemplate : Option String → String
  | none => "undefined"
  | some s => s

/-- JS `String.prototype.toLowerCase` on one character, in the ASCII
range (the digests and status keywords compared in this code are
ASCII; the simple non-ASCII Unicode mappings are not modelled). -/
def charLower (c : Char) : Char :=
  if 65 ≤ c.toNat && c.toNat ≤ 90 then Char.ofNat (c.toNat + 32) else c

/-- JS `String.prototype.toLowerCase`. -/
def sLower (s : String) : String := String.mk (s.data.map charLower)

/-- Key-value record with string values: the shape of a parsed
form-urlencoded body or of a loosely-typed webhook object. -/
abbrev KV := List (String × String)

/-- Property lookup on a JS object literal built from entries
(`Object.fromEntries` keeps the last entry for a repeated key). -/
def kvGet (kv : KV) (k : String) : Option String :=
  kv.foldl (fun acc p => if p.1 == k then some p.2 else acc) none

/-! ### Hash engine (`client.ts`: `PayuClient`)

`generatePaymentHash` and `verifyResponseHash`, embedded from
`src/providers/payu/client.ts` lines 704-774.  The configuration record
mirrors `PayuProviderConfig`. -/

structure PayuProviderConfig where
  merchantKey : String
  merchantSalt : String
  environment : String
  autoCapture : Bool
deriving DecidableEq, Repr

/-- Parameters of `PayuClient.generatePaymentHash` (optional udf fields
are `string | undefined`). -/
structure PaymentHashParams where
  txnid : String
  amount : String
  productinfo : String
  firstname : String
  email : String
  udf1 : Option String := none
  udf2 : Option String := none
  udf3 : Option String := none
  udf4 : Option String := none
  udf5 : Option String := none
deriving DecidableEq, Repr

/-- The request-signing preimage, exactly the template literal of
`generatePaymentHash`:
`key|txnid|amount|productinfo|firstname|email|udf1|udf2|udf3|udf4|udf5||||||salt`
with each missing udf defaulted to `""` by `params.udfN || ""`. -/
def paymentHashString (cfg : PayuProviderConfig) (p : PaymentHashParams) : String :=
  cfg.merchantKey ++ "|" ++ p.txnid ++ "|" ++ p.amount ++ "|" ++ p.productinfo
    ++ "|" ++ p.firstname ++ "|" ++ p.email ++ "|" ++ jsGetD p.udf1 ++ "|"
    ++ jsGetD p.udf2 ++ "|" ++ jsGetD p.udf3 ++ "|" ++ jsGetD p.udf4 ++ "|"
    ++ jsGetD p.udf5 ++ "||||||" ++ cfg.merchantSalt

/-- `PayuClient.generatePaymentHash`: SHA-512 hex digest of the
preimage, lowercased (`digest("hex").toLowerCase()`). -/
def generatePaymentHash (cfg : PayuProviderConfig) (p : PaymentHashParams) : String :=
  sLower (sha512hex (paymentHashString cfg p))

/-- Parameters of `PayuClient.verifyResponseHash`. -/
structure ResponseHashParams where
  status : String
  email : String
  firstname : String
  productinfo : String
  amount : String
  txnid : String
  hash : String
  udf1 : Option String := none
  udf2 : Option String := none
  udf3 : Option String := none
  udf4 : Option String := none
  udf5 : Option String := none
  additionalCharges : Option String := none
deriving DecidableEq, Repr

/-- The response-verification preimage of `verifyResponseHash`: the
reverse-order formula, with the `additionalCharges` prefix chosen by
`if (params.additionalCharges)` — that is, by JS truthiness, so an
empty-string `additionalCharges` selects the unprefixed branch. -/
def responseHashString (cfg : PayuProviderConfig) (p : ResponseHashParams) : String :=
  if jsTruthy p.additionalCharges then
    jsGetD p.additionalCharges ++ "|" ++ cfg.merchantSalt ++ "|" ++ p.status
      ++ "||||||" ++ jsGetD p.udf5 ++ "|" ++ jsGetD p.udf4 ++ "|" ++ jsGetD p.udf3
      ++ "|" ++ jsGetD p.udf2 ++ "|" ++ jsGetD p.udf1 ++ "|" ++ p.email ++ "|"
      ++ p.firstname ++ "|" ++ p.productinfo ++ "|" ++ p.amount ++ "|" ++ p.txnid
      ++ "|" ++ cfg.merchantKey
  else
    cfg.merchantSalt ++ "|" ++ p.status
      ++ "||||||" ++ jsGetD p.udf5 ++ "|" ++ jsGetD p.udf4 ++ "|" ++ jsGetD p.udf3
      ++ "|" ++ jsGetD p.udf2 ++ "|" ++ jsGetD p.udf1 ++ "|" ++ p.email ++ "|"
      ++ p.firstname ++ "|" ++ p.productinfo ++ "|" ++ p.amount ++ "|" ++ p.txnid
      ++ "|" ++ cfg.merchantKey

/-- `PayuClient.verifyResponseHash`: recompute the reverse digest and
compare case-insensitively with the claimed digest
(`calculatedHash === params.hash.toLowerCase()`). -/
def verifyResponseHash (cfg : PayuProviderConfig) (p : ResponseHashParams) : Bool :=
  sLower (sha512hex (responseHashString cfg p)) == sLower p.hash

/-- `|`-separated concatenation of a field list; the gateway's hash
contract phrased as the spec phrases it ("concatenates fields with `|`
separators").  Used to relate the template-literal preimages above to
the spec's field lists. -/
def joinPipe : List String → String
  | [] => ""
  | [x] => x
  | x :: y :: xs => x ++ "|" ++ joinPipe (y :: xs)

/-- The request-signing formula as §4.1 of the spec words it: the
eleven fields joined with `|`, six literal pipes, then the salt.
Modelled from the spec; compared against `paymentHashString` below. -/
def specSignPreimage (cfg : PayuProviderConfig) (p : PaymentHashParams) : String :=
  joinPipe [cfg.merchantKey, p.txnid, p.amount, p.productinfo, p.firstname,
    p.email, jsGetD p.udf1, jsGetD p.udf2, jsGetD p.udf3, jsGetD p.udf4,
    jsGetD p.udf5] ++ "||||||" ++ cfg.merchantSalt

/-! ### Numeric models: `parseFloat`, `toFixed(2)`, `BigNumber`

`service.ts` parses webhook amounts with
`new BigNumber(parseFloat(webhook.amount))` and formats outbound
amounts with `toFixed(2)`.  `parseFloat` produces an IEEE-754 binary64
value; that rounding is modelled exactly over the normal range as
round-to-nearest-even at 53 significant bits on rationals (overflow and
subnormals are outside the amounts considered).  `NaN` is modelled as
`Option.none`. -/

/-- Fuelled binary logarithm (`⌊log₂ n⌋` for `n ≥ 1` when fuel ≥ n). -/
def log2fuel : Nat → Nat → Nat
  | 0, _ => 0
  | fuel + 1, n => if n ≤ 1 then 0 else log2fuel fuel (n / 2) + 1

/-- `⌊log₂ (n / d)⌋` for positive naturals, by bit-length estimate and
integer-shift correction. -/
def ilog2Frac (n d : Nat) : Int :=
  let e0 : Int := (log2fuel n n : Int) - (log2fuel d d : Int)
  let pow2le : Int → Bool := fun e =>
    if 0 ≤ e then decide (d <<< e.toNat ≤ n) else decide (d ≤ n <<< (-e).toNat)
  if pow2le (e0 + 1) then e0 + 1
  else if pow2le e0 then e0
  else if pow2le (e0 - 1) then e0 - 1
  else e0 - 2

/-- IEEE-754 binary64 rounding of the exact rational `±(n / d)`:
round-to-nearest, ties-to-even, at 53 significant bits, computed with
integer arithmetic (overflow to infinity and subnormal underflow are
outside the amounts considered). -/
def roundToDoubleParts (neg : Bool) (n d : Nat) : ℚ :=
  if n = 0 then 0
  else
    let e := ilog2Frac n d
    let shift : Int := 52 - e
    let n2 := if 0 ≤ shift then n <<< shift.toNat else n
    let d2 := if 0 ≤ shift then d else d <<< (-shift).toNat
    let f := n2 / d2
    let r := n2 % d2
    let m := if 2 * r < d2 then f
      else if d2 < 2 * r then f + 1
      else if f % 2 = 0 then f else f + 1
    let v : ℚ := if 0 ≤ shift then mkRat m (1 <<< shift.toNat)
      else mkRat (m <<< (-shift).toNat) 1
    if neg then -v else v

def digitVal (c : Char) : Nat := c.toNat - 48

def digitsToNat (l : List Char) : Nat :=
  l.foldl (fun a c => a * 10 + digitVal c) 0

/-- JS `parseFloat`: skip whitespace, optional sign, decimal digits with
optional fraction and exponent, ignoring trailing garbage; no digits at
all gives `NaN` (`none`).  The numeric value is rounded to a binary64
double, which is the value `BigNumber` receives. -/
def jsParseFloat (s : String) : Option ℚ :=
  let l := s.data.dropWhile (fun c => c.isWhitespace)
  let neg : Bool := match l with
    | '-' :: _ => true
    | _ => false
  let l1 : List Char := match l with
    | '-' :: r => r
    | '+' :: r => r
    | r => r
  let ip := l1.span (·.isDigit)
  let fp : List Char × List Char := match ip.2 with
    | '.' :: r => r.span (·.isDigit)
    | r => ([], r)
  if ip.1.isEmpty && fp.1.isEmpty then none
  else
    let mantNum : Nat := digitsToNat ip.1 * 10 ^ fp.1.length + digitsToNat fp.1
    let exp : Int := match fp.2 with
      | 'e' :: '-' :: r => (if (r.span (·.isDigit)).1.isEmpty then 0
          else -(digitsToNat (r.span (·.isDigit)).1 : Int))
      | 'e' :: '+' :: r => (digitsToNat (r.span (·.isDigit)).1 : Int)
      | 'e' :: r => (digitsToNat (r.span (·.isDigit)).1 : Int)
      | 'E' :: '-' :: r => (if (r.span (·.isDigit)).1.isEmpty then 0
          else -(digitsToNat (r.span (·.isDigit)).1 : Int))
      | 'E' :: '+' :: r => (digitsToNat (r.span (·.isDigit)).1 : Int)
      | 'E' :: r => (digitsToNat (r.span (·.isDigit)).1 : Int)
      | _ => 0
    let e10 : Int := exp - fp.1.length
    let n : Nat := if 0 ≤ e10 then mantNum * 10 ^ e10.toNat else mantNum
    let d : Nat := if 0 ≤ e10 then 1 else 10 ^ (-e10).toNat
    some (roundToDoubleParts neg n d)

/-- The exact rational value of a plain decimal string
(digits, optional fraction), with no floating-point rounding.
Modelled from the spec: the "decimal-safe representation" §4.4 requires
for webhook amounts. -/
def exactDecimal (s : String) : Option ℚ :=
  let ip := s.data.span (·.isDigit)
  let fp : List Char × List Char := match ip.2 with
    | '.' :: r => r.span (·.isDigit)
    | r => ([], r)
  if ip.1.isEmpty && fp.1.isEmpty then none
  else some (mkRat (digitsToNat ip.1 * 10 ^ fp.1.length + digitsToNat fp.1 : Nat)
    (10 ^ fp.1.length))

def pad2 (m : Nat) : String :=
  if m < 10 then "0" ++ Nat.repr m else Nat.repr m

/-- `Number.prototype.toFixed(2)` on a nonnegative amount, modelled as
exact half-up rounding of the rational value to two decimals, computed
on the numerator and denominator (binary-double representation
artifacts of `toFixed` are not modelled; no claim depends on them). -/
def toFixed2 (q : ℚ) : String :=
  let n := q.num.toNat * 100
  let m := (2 * n + q.den) / (2 * q.den)
  Nat.repr (m / 100) ++ "." ++ pad2 (m % 100)

/-- `PayuPaymentProviderService.formatAmount`: coerce to number, then
`toFixed(2)`.  The `BigNumberInput` is modelled by its rational value. -/
def formatAmount (q : ℚ) : String := toFixed2 q

/-! ### Session data and provider operations (`service.ts`) -/

/-- One entry of `transaction_details` in a PayU verify response. -/
structure VerifyTxn where
  mihpayid : String
  status : String
deriving DecidableEq, Repr

/-- `PayuVerifyResponse`: `status` is the API-level 0/1 flag and
`transaction_details` is a map keyed by txnid. -/
structure PayuVerifyResponse where
  status : Int
  transaction_details : List (String × VerifyTxn)
deriving DecidableEq, Repr

/-- JS object property lookup (`transaction_details[txnid]`). -/
def jsIndex {α : Type} (l : List (String × α)) (k : String) : Option α :=
  (l.find? (fun q => q.1 == k)).map (·.2)

/-- The refund record attached on a successful refund. -/
structure RefundRecord where
  tokenId : String
  amount : String
  request_id : Option String
deriving DecidableEq, Repr

/-- `PayuSessionData`, the session record stored by the platform.
`status` is the `PayuPaymentStatus` string. -/
structure PayuSessionData where
  txnid : String
  amount : String
  productinfo : String
  firstname : String
  email : String
  phone : String
  hash : String
  paymentUrl : String
  status : String
  countryCode : String
  payuTransactionId : Option String := none
  payuResponse : Option VerifyTxn := none
  refundInfo : Option RefundRecord := none
deriving DecidableEq, Repr

/-- The `PaymentSessionStatus` values this provider returns. -/
inductive PaymentSessionStatus
  | authorized
  | error
  | pending
  | canceled
deriving DecidableEq, Repr

structure AuthorizeOutput where
  status : PaymentSessionStatus
  data : PayuSessionData
deriving DecidableEq, Repr

/-- `PayuPaymentProviderService.authorizePayment` (service.ts 211-248).
The gateway call `client.verifyPayment` is passed in as `gw`; a thrown
network error is `Except.error` and is re-thrown by the method's catch
block. -/
def authorizePayment (gw : String → Except String PayuVerifyResponse)
    (input : PayuSessionData) : Except String AuthorizeOutput :=
  if input.status == "authorized" || input.status == "captured" then
    .ok ⟨.authorized, input⟩
  else
    match gw input.txnid with
    | .error e => .error e
    | .ok resp =>
      if resp.status == 1 then
        match jsIndex resp.transaction_details input.txnid with
        | some txn =>
          if txn.status == "success" then
            .ok ⟨.authorized,
              { input with
                status := "authorized"
                payuTransactionId := some txn.mihpayid
                payuResponse := some txn }⟩
          else .ok ⟨.error, { input with status := "failed" }⟩
        | none => .ok ⟨.error, { input with status := "failed" }⟩
      else .ok ⟨.error, { input with status := "failed" }⟩

/-- `capturePayment`: bookkeeping-only transition (PayU auto-captures). -/
def capturePayment (input : PayuSessionData) : PayuSessionData :=
  { input with status := "captured" }

/-- `cancelPayment`: pure transition to `cancelled`. -/
def cancelPayment (input : PayuSessionData) : PayuSessionData :=
  { input with status := "cancelled" }

/-- `getPaymentStatus`: the status map of service.ts 383-392. -/
def getPaymentStatus (input : PayuSessionData) : PaymentSessionStatus :=
  if input.status == "pending" then .pending
  else if input.status == "authorized" then .authorized
  else if input.status == "captured" then .authorized
  else if input.status == "failed" then .error
  else if input.status == "refunded" then .authorized
  else if input.status == "cancelled" then .canceled
  else .pending

/-- `PayuRefundResponse` fields the service reads. -/
structure PayuRefundResponse where
  status : Int
  msg : Option String
  request_id : Option String
  mihpayid : Option String
  error_code : Option String
deriving DecidableEq, Repr

inductive MedusaErrorType
  | invalidData
  | unexpectedState
deriving DecidableEq, Repr

structure MedusaErr where
  type : MedusaErrorType
  message : String
deriving DecidableEq, Repr

/-- JS `String.prototype.includes`. -/
def listInfixOf (needle : List Char) : List Char → Bool
  | [] => needle.isEmpty
  | c :: r => needle.isPrefixOf (c :: r) || listInfixOf needle r

def jsIncludes (hay needle : String) : Bool :=
  listInfixOf needle.data hay.data

/-- ASCII apostrophe, kept out of string literals. -/
def apos : String := String.mk [Char.ofNat 39]

/-- The refund failure-message classification of service.ts 320-340. -/
def classifyRefundError (msg : Option String) (refundAmount mihpayid : String) : String :=
  let lower := sLower (jsGetD msg)
  if jsIncludes lower "try after some time" then
    "PayU says: \"" ++ jsGetD msg ++ "\". This usually means: " ++
    "(1) The payment was captured today and PayU requires 24 hours before refund, " ++
    "(2) A refund is already in progress for this transaction, or " ++
    "(3) PayU is experiencing temporary issues. Please try again later."
  else if jsIncludes lower "token already used" then
    "Refund token already used. A refund may already be pending for this transaction. " ++
    "Please check the transaction status in PayU dashboard."
  else if jsIncludes lower "transaction not exists" then
    "Transaction not found in PayU. The mihpayid (" ++ mihpayid ++ ") may be incorrect."
  else if jsIncludes lower "amount" then
    "Invalid refund amount (" ++ refundAmount ++ "). Please ensure it doesn" ++ apos ++
    "t exceed the original transaction amount."
  else jsGetD (jsOrElse msg (some "Unknown error"))

/-- `PayuPaymentProviderService.refundPayment` (service.ts 263-358).
`now` is `Date.now()` and `gw` is `client.refund`; the catch block wraps
non-Medusa errors as `UNEXPECTED_STATE` Medusa errors. -/
def refundPayment (now : Nat)
    (gw : String → String → String → Except String PayuRefundResponse)
    (data : PayuSessionData) (amount : ℚ) : Except MedusaErr PayuSessionData :=
  if !(jsTruthy data.payuTransactionId) then
    .error ⟨.unexpectedState,
      "No PayU transaction ID (mihpayid) found. This payment may not have been fully captured or the session data is incomplete."⟩
  else
    let pid := jsGetD data.payuTransactionId
    let tokenId := "REF_" ++ pid ++ "_" ++ Nat.repr now
    let refundAmount := formatAmount amount
    match gw pid tokenId refundAmount with
    | .error e => .error ⟨.unexpectedState, e⟩
    | .ok resp =>
      if resp.status == 1 then
        .ok { data with
              status := "refunded"
              refundInfo := some ⟨tokenId, refundAmount, resp.request_id⟩ }
      else
        .error ⟨.invalidData,
          "Refund failed: " ++ classifyRefundError resp.msg refundAmount pid⟩

/-! ### Payment initiation (`service.ts` 113-206) -/

structure BillingAddress where
  phone : Option String
deriving DecidableEq, Repr

/-- The customer context fields `initiatePayment` reads. -/
structure CustomerCtx where
  email : Option String := none
  first_name : Option String := none
  phone : Option String := none
  billing_address : Option BillingAddress := none
deriving DecidableEq, Repr

/-- The environment variables `initiatePayment` reads. -/
structure EnvVars where
  storefrontUrl : Option String
  payuRedirectUrl : Option String
  payuRedirectFailureUrl : Option String
deriving DecidableEq, Repr

structure InitiateInput where
  amount : ℚ
  customer : Option CustomerCtx := none
  data : Option KV := none
deriving DecidableEq, Repr

def kvGetIn (d : Option KV) (k : String) : Option String :=
  d.bind (fun kv => kvGet kv k)

/-- service.ts 125: `customer?.email || (inputData?.email as string)` —
platform customer context first, then the payload. -/
def resolvedEmail (input : InitiateInput) : Option String :=
  jsOrElse (input.customer.bind (·.email)) (kvGetIn input.data "email")

/-- service.ts 130: `customer?.first_name || inputData?.firstname ||
inputData?.first_name`. -/
def resolvedFirstname (input : InitiateInput) : Option String :=
  jsOrElse (jsOrElse (input.customer.bind (·.first_name))
    (kvGetIn input.data "firstname")) (kvGetIn input.data "first_name")

/-- service.ts 136-139: `customer?.phone || customer?.billing_address?.phone
|| inputData?.shipping_address_phone || inputData?.phone`. -/
def resolvedPhone (input : InitiateInput) : Option String :=
  jsOrElse (jsOrElse (jsOrElse (input.customer.bind (·.phone))
    ((input.customer.bind (·.billing_address)).bind (·.phone)))
    (kvGetIn input.data "shipping_address_phone")) (kvGetIn input.data "phone")

/-- The email resolution order as §4.3 of the spec words it: "explicit
payload value → platform-provided customer context".  Modelled from the
spec, for comparison with `resolvedEmail`. -/
def specResolvedEmail (input : InitiateInput) : Option String :=
  jsOrElse (kvGetIn input.data "email") (input.customer.bind (·.email))

/-- `PayuClient.getPaymentUrl`. -/
def getPaymentUrl (cfg : PayuProviderConfig) : String :=
  if cfg.environment == "production" then "https://secure.payu.in/_payment"
  else "https://test.payu.in/_payment"

/-- The `form_data` record returned by `initiatePayment`. -/
structure FormData where
  key : String
  txnid : String
  amount : String
  productinfo : String
  firstname : String
  email : String
  phone : String
  surl : String
  furl : String
  hash : String
  service_provider : String
deriving DecidableEq, Repr

structure InitiateOutput where
  id : String
  data : PayuSessionData
  form_data : FormData
deriving DecidableEq, Repr

/-- `generateTxnId` (client.ts 838-842), with `Date.now()` and the
random bytes passed in. -/
def generateTxnId (timestamp : Nat) (randomHex : String) : String :=
  "TXN_" ++ Nat.repr timestamp ++ "_" ++ randomHex

/-- `PayuPaymentProviderService.initiatePayment` (service.ts 113-206).
The generated txnid, customer context, payload data and environment
variables are explicit inputs; validation failures are thrown errors. -/
def initiatePayment (cfg : PayuProviderConfig) (env : EnvVars) (txnid : String)
    (input : InitiateInput) : Except String InitiateOutput :=
  let formattedAmount := formatAmount input.amount
  if !(jsTruthy (resolvedEmail input)) then
    .error "Customer email is required for payment processing. Pass email in data payload or ensure customer is logged in."
  else if !(jsTruthy (resolvedFirstname input)) then
    .error "Customer name is required for payment processing. Pass firstname in data payload."
  else if !(jsTruthy (resolvedPhone input)) then
    .error "Phone number is required for payment processing. Pass phone in data payload."
  else if !(jsTruthy env.storefrontUrl) || !(jsTruthy env.payuRedirectUrl)
      || !(jsTruthy env.payuRedirectFailureUrl) then
    .error "STOREFRONT_URL, PAYU_REDIRECT_URL, and PAYU_REDIRECT_FAILURE_URL environment variables are required"
  else
    let email := jsGetD (resolvedEmail input)
    let firstname := jsGetD (resolvedFirstname input)
    let phone := jsGetD (resolvedPhone input)
    let productinfo := jsGetD (jsOrElse (kvGetIn input.data "productinfo") (some "Order Payment"))
    let countryCode := jsGetD (jsOrElse (kvGetIn input.data "country_code") (some "in"))
    let surl := jsGetD env.storefrontUrl ++ "/" ++ countryCode ++ jsGetD env.payuRedirectUrl
    let furl := jsGetD env.storefrontUrl ++ "/" ++ countryCode ++ jsGetD env.payuRedirectFailureUrl
    let hash := generatePaymentHash cfg
      { txnid := txnid, amount := formattedAmount, productinfo := productinfo,
        firstname := firstname, email := email }
    .ok { id := txnid,
          data := { txnid := txnid, amount := formattedAmount,
                    productinfo := productinfo, firstname := firstname,
                    email := email, phone := phone, hash := hash,
                    paymentUrl := getPaymentUrl cfg, status := "pending",
                    countryCode := countryCode },
          form_data := { key := cfg.merchantKey, txnid := txnid,
                         amount := formattedAmount, productinfo := productinfo,
                         firstname := firstname, email := email, phone := phone,
                         surl := surl, furl := furl, hash := hash,
                         service_provider := "payu_paisa" } }

/-! ### Webhook reconciler (`service.ts` 465-629) -/

/-- `data.rawData`: a raw body (string, or Buffer rendered via
`toString("utf8")`) or some other already-parsed object. -/
inductive RawData
  | text (s : String)
  | obj (kv : KV)
deriving DecidableEq, Repr

/-- The webhook payload shapes `getWebhookActionAndData` probes:
`rawData`, then a nested `data.data` object (`none` models absent,
`null`, or non-object), then top-level fields. -/
structure WebhookPayload where
  rawData : Option RawData := none
  nested : Option KV := none
  top : KV := []
deriving DecidableEq, Repr

def hexVal (c : Char) : Option Nat :=
  if c.isDigit then some (c.toNat - 48)
  else if 97 ≤ c.toNat && c.toNat ≤ 102 then some (c.toNat - 87)
  else if 65 ≤ c.toNat && c.toNat ≤ 70 then some (c.toNat - 55)
  else none

/-- Form-urlencoded component decoding (`+` to space, `%XX` to the code
point; malformed escapes kept literally).  Byte-level UTF-8
recombination of multi-byte escapes is not modelled; the claims do not
depend on it. -/
def decodeComponent : List Char → List Char
  | [] => []
  | '+' :: r => ' ' :: decodeComponent r
  | '%' :: a :: b :: r =>
    match hexVal a, hexVal b with
    | some x, some y => Char.ofNat (16 * x + y) :: decodeComponent r
    | _, _ => '%' :: decodeComponent (a :: b :: r)
  | c :: r => c :: decodeComponent r

def splitChar (c : Char) : List Char → List (List Char)
  | [] => [[]]
  | x :: r =>
    match splitChar c r with
    | [] => [[x]]
    | g :: gs => if x == c then [] :: g :: gs else (x :: g) :: gs

/-- Split a segment at its first `=` (absent `=` gives an empty value,
as `URLSearchParams` does). -/
def splitEq : List Char → List Char × List Char
  | [] => ([], [])
  | '=' :: r => ([], r)
  | c :: r => ((splitEq r).1.cons c, (splitEq r).2)

/-- `new URLSearchParams(body)` followed by `Object.fromEntries`:
strip a leading `?`, split on `&`, drop empty segments, split each at
the first `=`, decode both sides. -/
def parseUrlEncoded (s : String) : KV :=
  let l : List Char := match s.data with
    | '?' :: r => r
    | r => r
  ((splitChar '&' l).filter (fun seg => !seg.isEmpty)).map (fun seg =>
    (String.mk (decodeComponent (splitEq seg).1),
     String.mk (decodeComponent (splitEq seg).2)))

inductive WebhookAction
  | authorized
  | failed
  | not_supported
deriving DecidableEq, Repr

structure WebhookData where
  session_id : String
  amount : Option ℚ
deriving DecidableEq, Repr

structure WebhookActionResult where
  action : WebhookAction
  data : Option WebhookData := none
deriving DecidableEq, Repr

/-- Shape probing after the `rawData` branch: `data.data` if it is an
object (service.ts 496-507 uses it whether or not it has txnid/status),
else top-level fields when `data.txnid || data.status` is truthy. -/
def normalizeRest (p : WebhookPayload) : Option KV :=
  match p.nested with
  | some kv => some kv
  | none =>
    if jsTruthy (kvGet p.top "txnid") || jsTruthy (kvGet p.top "status") then
      some p.top
    else none

/-- Payload normalization (service.ts 481-520): `rawData` first (an
empty raw string is falsy and skips the branch), then `data.data`, then
top-level; `none` is the "no valid data structure" rejection. -/
def normalizeWebhook (p : WebhookPayload) : Option KV :=
  match p.rawData with
  | some (.text s) => if s == "" then normalizeRest p else some (parseUrlEncoded s)
  | some (.obj kv) => some kv
  | none => normalizeRest p

/-- service.ts 523: `!webhook.txnid || !webhook.status || !webhook.hash`. -/
def requiredPresent (w : KV) : Bool :=
  jsTruthy (kvGet w "txnid") && jsTruthy (kvGet w "status") && jsTruthy (kvGet w "hash")

/-- The argument record of the `verifyResponseHash` call at service.ts
542-555; absent fields are stringified as `"undefined"` by the template
literals inside the hash computation, udf fields stay optional, and
`additionalCharges` is never passed. -/
def webhookVerifyParams (w : KV) : ResponseHashParams :=
  { status := jsTemplate (kvGet w "status"),
    email := jsTemplate (kvGet w "email"),
    firstname := jsTemplate (kvGet w "firstname"),
    productinfo := jsTemplate (kvGet w "productinfo"),
    amount := jsTemplate (kvGet w "amount"),
    txnid := jsTemplate (kvGet w "txnid"),
    hash := jsTemplate (kvGet w "hash"),
    udf1 := kvGet w "udf1",
    udf2 := kvGet w "udf2",
    udf3 := kvGet w "udf3",
    udf4 := kvGet w "udf4",
    udf5 := kvGet w "udf5",
    additionalCharges := none }

/-- service.ts 577/591: `new BigNumber(parseFloat(webhook.amount))`.
The `BigNumber` value is modelled as the exact rational value of the
binary64 double `parseFloat` produces (bignumber.js re-reads that
double through its decimal rendering, which coincides with the double's
value on the amounts considered here). -/
def webhookAmount (w : KV) : Option ℚ :=
  jsParseFloat (jsTemplate (kvGet w "amount"))

/-- service.ts 568: `webhook.udf1 || webhook.txnid`. -/
def webhookSessionId (w : KV) : String :=
  jsGetD (jsOrElse (kvGet w "udf1") (kvGet w "txnid"))

/-- The status classification of service.ts 569-622 on a verified
webhook record. -/
def classifyWebhook (w : KV) : WebhookActionResult :=
  let st := sLower (jsTemplate (kvGet w "status"))
  if st == "success" then
    ⟨.authorized, some ⟨webhookSessionId w, webhookAmount w⟩⟩
  else if st == "failure" || st == "failed" then
    ⟨.failed, some ⟨webhookSessionId w, webhookAmount w⟩⟩
  else if st == "refund" || st == "refunded" then ⟨.not_supported, none⟩
  else if st == "dispute" || st == "chargeback" then ⟨.not_supported, none⟩
  else ⟨.not_supported, none⟩

/-- `PayuPaymentProviderService.getWebhookActionAndData`
(service.ts 465-629): normalize the payload shape, require
txnid/status/hash, verify the reverse hash, then classify.  Every
rejection path — including the catch-all exception handler — returns
`not_supported` with no session data. -/
def getWebhookActionAndData (cfg : PayuProviderConfig) (p : WebhookPayload) :
    WebhookActionResult :=
  match normalizeWebhook p with
  | none => ⟨.not_supported, none⟩
  | some w =>
    if !(requiredPresent w) then ⟨.not_supported, none⟩
    else if !(verifyResponseHash cfg (webhookVerifyParams w)) then
      ⟨.not_supported, none⟩
    else classifyWebhook w

/-! ### Concrete fixtures used by witnesses and counterexamples -/

/-- PayU's public sandbox credentials, used as concrete fixture. -/
def cfgT : PayuProviderConfig :=
  { merchantKey := "gtKFFx", merchantSalt := "eCwWELxi",
    environment := "test", autoCapture := true }

def rp0 : ResponseHashParams :=
  { status := "success", email := "a@b.com", firstname := "Jane",
    productinfo := "Order Payment", amount := "500.00",
    txnid := "TXN_1_ab", hash := "" }

def pp0 : PaymentHashParams :=
  { txnid := "TXN_1_ab", amount := "500.00", productinfo := "Order Payment",
    firstname := "Jane", email := "a@b.com" }

def sessAuth : PayuSessionData :=
  { txnid := "TXN_1_ab", amount := "500.00", productinfo := "Order Payment",
    firstname := "Jane", email := "a@b.com", phone := "9999999999",
    hash := "h", paymentUrl := "https://test.payu.in/_payment",
    status := "authorized", countryCode := "in" }

def sessPend : PayuSessionData := { sessAuth with status := "pending" }

def gwErr : String → Except String PayuVerifyResponse :=
  fun _ => .error "network error"

def gwOk1 : String → Except String PayuVerifyResponse :=
  fun t => .ok ⟨1, [(t, ⟨"403993715531", "success"⟩)]⟩

def gwTimeout : String → Except String PayuVerifyResponse :=
  fun _ => .error "PayU API request timed out after 30000ms"

def gwFail0 : String → Except String PayuVerifyResponse :=
  fun _ => .ok ⟨0, []⟩

def gwRef : String → String → String → Except String PayuRefundResponse :=
  fun _ _ _ => .ok ⟨1, some "Refund Initiated", some "1", none, none⟩

def w3 : KV :=
  [("txnid", "TXN_1_ab"), ("status", "success"), ("hash", "deadbeefdeadbeef")]

def p3 : WebhookPayload := { top := w3 }

def rp6 : ResponseHashParams := { rp0 with udf1 := some "sess_abc" }

def d6 : String := sha512hex (responseHashString cfgT rp6)

def w6 : KV :=
  [("txnid", "TXN_1_ab"), ("status", "success"), ("hash", d6),
   ("email", "a@b.com"), ("firstname", "Jane"),
   ("productinfo", "Order Payment"), ("amount", "500.00"),
   ("udf1", "sess_abc")]

def p6 : WebhookPayload := { top := w6 }

def rp8 : ResponseHashParams :=
  { status := "success", email := "a@b.com", firstname := "Jane",
    productinfo := "P", amount := "9007199254740993",
    txnid := "TXN_1_ab", hash := "" }

def d8 : String := sha512hex (responseHashString cfgT rp8)

def w8 : KV :=
  [("txnid", "TXN_1_ab"), ("status", "success"), ("hash", d8),
   ("email", "a@b.com"), ("firstname", "Jane"), ("productinfo", "P"),
   ("amount", "9007199254740993")]

def p8 : WebhookPayload := { top := w8 }

def cust9 : CustomerCtx :=
  { email := some "c@x.com", first_name := some "Jane",
    phone := some "9999999999" }

def in9 : InitiateInput :=
  { amount := 500, customer := some cust9, data := some [("email", "p@x.com")] }

def in9b : InitiateInput := { amount := 500 }

def env9 : EnvVars :=
  ⟨some "https://shop.example", some "/order/confirmed", some "/checkout"⟩

end Payu

namespace Payu

/-! ### Helper lemmas: string cancellation, `joinPipe` injectivity,
preimage normal forms, digest lowercase stability -/

theorem str_data_inj {s t : String} (h : s.data = t.data) : s = t := by
  cases s
  cases t
  exact congrArg String.mk h

theorem str_data_append (a b : String) : (a ++ b).data = a.data ++ b.data := by
  cases a
  cases b
  rfl

theorem str_cancel_left {a b c : String} (h : a ++ b = a ++ c) : b = c := by
  apply str_data_inj
  have h2 := congrArg String.data h
  rw [str_data_append, str_data_append] at h2
  exact List.append_cancel_left h2

theorem str_cancel_right {a b c : String} (h : a ++ c = b ++ c) : a = b := by
  apply str_data_inj
  have h2 := congrArg String.data h
  rw [str_data_append, str_data_append] at h2
  exact List.append_cancel_right h2

theorem joinPipe_inj1 :
    ∀ (A : List String) (v v' : String) (B : List String),
      joinPipe (A ++ v :: B) = joinPipe (A ++ v' :: B) → v = v' := by
  intro A
  induction A with
  | nil =>
    intro v v' B h
    cases B with
    | nil => simpa [joinPipe] using h
    | cons b B' =>
      simp only [List.nil_append, joinPipe] at h
      exact str_cancel_right (str_cancel_right h)
  | cons a A ih =>
    intro v v' B h
    cases hA : A ++ v :: B with
    | nil => exact absurd hA (List.append_ne_nil_of_right_ne_nil A (by simp))
    | cons z zs =>
      cases hA' : A ++ v' :: B with
      | nil => exact absurd hA' (List.append_ne_nil_of_right_ne_nil A (by simp))
      | cons z' zs' =>
        simp only [List.cons_append, hA, hA', joinPipe] at h
        have h2 : joinPipe (z :: zs) = joinPipe (z' :: zs') :=
          str_cancel_left h
        apply ih v v' B
        rw [hA, hA', h2]

theorem joinPipe_inj2 :
    ∀ (A : List String) (x y x' y' : String) (B : List String),
      joinPipe (A ++ x :: y :: B) = joinPipe (A ++ x' :: y' :: B) →
      x ++ "|" ++ y = x' ++ "|" ++ y' := by
  intro A
  induction A with
  | nil =>
    intro x y x' y' B h
    cases B with
    | nil => simpa [joinPipe] using h
    | cons b B' =>
      simp only [List.nil_append, joinPipe] at h
      have h3 : ((x ++ "|" ++ y) ++ "|") ++ joinPipe (b :: B') =
          ((x' ++ "|" ++ y') ++ "|") ++ joinPipe (b :: B') := by
        simp only [String.append_assoc]
        simpa only [String.append_assoc] using h
      exact str_cancel_right (str_cancel_right h3)
  | cons a A ih =>
    intro x y x' y' B h
    cases hA : A ++ x :: y :: B with
    | nil => exact absurd hA (List.append_ne_nil_of_right_ne_nil A (by simp))
    | cons z zs =>
      cases hA' : A ++ x' :: y' :: B with
      | nil => exact absurd hA' (List.append_ne_nil_of_right_ne_nil A (by simp))
      | cons z' zs' =>
        simp only [List.cons_append, hA, hA', joinPipe] at h
        have h2 : joinPipe (z :: zs) = joinPipe (z' :: zs') :=
          str_cancel_left h
        apply ih x y x' y' B
        rw [hA, hA', h2]

theorem pipe6 : ("||||||" : String) = "|" ++ "|" ++ "|" ++ "|" ++ "|" ++ "|" := by
  decide

theorem paymentHashString_eq_joinPipe (cfg : PayuProviderConfig)
    (p : PaymentHashParams) :
    paymentHashString cfg p =
    joinPipe [cfg.merchantKey, p.txnid, p.amount, p.productinfo, p.firstname,
      p.email, jsGetD p.udf1, jsGetD p.udf2, jsGetD p.udf3, jsGetD p.udf4,
      jsGetD p.udf5, "", "", "", "", "", cfg.merchantSalt] := by
  simp only [paymentHashString, joinPipe, pipe6, String.append_assoc,
    String.empty_append]

theorem responseHashString_eq_joinPipe_noac (cfg : PayuProviderConfig)
    (p : ResponseHashParams) (h : jsTruthy p.additionalCharges = false) :
    responseHashString cfg p =
    joinPipe [cfg.merchantSalt, p.status, "", "", "", "", "", jsGetD p.udf5,
      jsGetD p.udf4, jsGetD p.udf3, jsGetD p.udf2, jsGetD p.udf1, p.email,
      p.firstname, p.productinfo, p.amount, p.txnid, cfg.merchantKey] := by
  simp only [responseHashString, h, Bool.false_eq_true, if_false, joinPipe,
    pipe6, String.append_assoc, String.empty_append]

theorem responseHashString_eq_joinPipe_ac (cfg : PayuProviderConfig)
    (p : ResponseHashParams) (h : jsTruthy p.additionalCharges = true) :
    responseHashString cfg p =
    joinPipe [jsGetD p.additionalCharges, cfg.merchantSalt, p.status, "", "",
      "", "", "", jsGetD p.udf5, jsGetD p.udf4, jsGetD p.udf3, jsGetD p.udf2,
      jsGetD p.udf1, p.email, p.firstname, p.productinfo, p.amount, p.txnid,
      cfg.merchantKey] := by
  simp only [responseHashString, h, if_true, joinPipe, pipe6,
    String.append_assoc, String.empty_append]

theorem charLower_hexDigit : ∀ d : Nat, d < 16 → charLower (hexDigit d) = hexDigit d := by
  decide

theorem map_charLower_word64Hex (v : Nat) :
    (word64Hex v).map charLower = word64Hex v := by
  unfold word64Hex
  rw [List.map_map]
  apply List.map_congr_left
  intro i _
  exact charLower_hexDigit _ (Nat.lt_succ_of_le (Nat.and_le_right))

theorem map_charLower_digestChars (ws : List Nat) :
    ((ws.foldr (fun v acc => word64Hex v ++ acc) []).map charLower) =
    ws.foldr (fun v acc => word64Hex v ++ acc) [] := by
  induction ws with
  | nil => rfl
  | cons w ws ih => simp [List.map_append, map_charLower_word64Hex, ih]

/-- The hex digest is already lowercase, so `toLowerCase` fixes it. -/
theorem sLower_sha512hex (s : String) : sLower (sha512hex s) = sha512hex s := by
  unfold sLower sha512hex
  exact congrArg String.mk (map_charLower_digestChars _)

end Payu

/-- FIPS 180-4 test vector: SHA-512 of the empty string. -/
theorem Payu.sha512hex_empty :
    Payu.sha512hex "" =
    "cf83e1357eefb8bdf1542850d66d8007d620e4050b5715dc83f4a921d36ce9ce47d0d13c5d85f2b0ff8318d2877eec2f63b931bd47417a81a538327af927da3e" := by
  decide

/-- FIPS 180-4 test vector: SHA-512 of `"abc"`. -/
theorem Payu.sha512hex_abc :
    Payu.sha512hex "abc" =
    "ddaf35a193617abacc417349ae20413112e6fa4e89a97ea20a9eeee64b55d39a2192992a274fc1a836ba3c23a3feebbd454d4423643ce80e2a9ac94fa54ca49f" := by
  decide

namespace Payu

/-- Claim C1, amended.  `verifyResponseHash` returns true exactly when the
claimed digest equals, case-insensitively, the SHA-512 hex digest of the
reverse-order string
`[additionalCharges|]salt|status||||||udf5|udf4|udf3|udf2|udf1|email|firstname|productinfo|amount|txnid|key`,
where the `additionalCharges` prefix is present only when that field is
supplied *and non-empty* (JS truthiness); in particular a digest produced
by the matching forward computation verifies, a claimed digest altered to
a case-insensitively different value is rejected, and altering any single
field (status, email, firstname, productinfo, amount, txnid, a supplied
udf value, or a supplied non-empty additionalCharges value) changes the
hashed preimage string, so the altered record verifies against the old
digest only in the event of a SHA-512 collision between two distinct
preimages.  The function is total (never throws). -/
theorem C1_verifyResponse_characterization :
    (∀ (cfg : PayuProviderConfig) (p : ResponseHashParams),
      verifyResponseHash cfg p = true ↔
        sLower (sha512hex (responseHashString cfg p)) = sLower p.hash) ∧
    (∀ (cfg : PayuProviderConfig) (p : ResponseHashParams),
      verifyResponseHash cfg
        { p with hash := sha512hex (responseHashString cfg p) } = true) ∧
    (∀ (cfg : PayuProviderConfig) (p : ResponseHashParams) (d : String),
      sLower d ≠ sLower (sha512hex (responseHashString cfg p)) →
        verifyResponseHash cfg { p with hash := d } = false) ∧
    (∀ (cfg : PayuProviderConfig) (p : ResponseHashParams) (v v' : String),
      responseHashString cfg { p with status := v } =
        responseHashString cfg { p with status := v' } → v = v') ∧
    (∀ (cfg : PayuProviderConfig) (p : ResponseHashParams) (v v' : String),
      responseHashString cfg { p with email := v } =
        responseHashString cfg { p with email := v' } → v = v') ∧
    (∀ (cfg : PayuProviderConfig) (p : ResponseHashParams) (v v' : String),
      responseHashString cfg { p with firstname := v } =
        responseHashString cfg { p with firstname := v' } → v = v') ∧
    (∀ (cfg : PayuProviderConfig) (p : ResponseHashParams) (v v' : String),
      responseHashString cfg { p with productinfo := v } =
        responseHashString cfg { p with productinfo := v' } → v = v') ∧
    (∀ (cfg : PayuProviderConfig) (p : ResponseHashParams) (v v' : String),
      responseHashString cfg { p with amount := v } =
        responseHashString cfg { p with amount := v' } → v = v') ∧
    (∀ (cfg : PayuProviderConfig) (p : ResponseHashParams) (v v' : String),
      responseHashString cfg { p with txnid := v } =
        responseHashString cfg { p with txnid := v' } → v = v') ∧
    (∀ (cfg : PayuProviderConfig) (p : ResponseHashParams) (v v' : String),
      responseHashString cfg { p with udf1 := some v } =
        responseHashString cfg { p with udf1 := some v' } → v = v') ∧
    (∀ (cfg : PayuProviderConfig) (p : ResponseHashParams) (v v' : String),
      responseHashString cfg { p with udf2 := some v } =
        responseHashString cfg { p with udf2 := some v' } → v = v') ∧
    (∀ (cfg : PayuProviderConfig) (p : ResponseHashParams) (v v' : String),
      responseHashString cfg { p with udf3 := some v } =
        responseHashString cfg { p with udf3 := some v' } → v = v') ∧
    (∀ (cfg : PayuProviderConfig) (p : ResponseHashParams) (v v' : String),
      responseHashString cfg { p with udf4 := some v } =
        responseHashString cfg { p with udf4 := some v' } → v = v') ∧
    (∀ (cfg : PayuProviderConfig) (p : ResponseHashParams) (v v' : String),
      responseHashString cfg { p with udf5 := some v } =
        responseHashString cfg { p with udf5 := some v' } → v = v') ∧
    (∀ (cfg : PayuProviderConfig) (p : ResponseHashParams) (v v' : String),
      v ≠ "" → v' ≠ "" →
      responseHashString cfg { p with additionalCharges := some v } =
        responseHashString cfg { p with additionalCharges := some v' } → v = v') :=
  ⟨(by
    intro cfg p
    simp [verifyResponseHash]),
  (by
    intro cfg p
    show (sLower (sha512hex (responseHashString cfg p)) ==
      sLower (sha512hex (responseHashString cfg p))) = true
    exact beq_self_eq_true _),
  (by
    intro cfg p d hne
    show (sLower (sha512hex (responseHashString cfg p)) == sLower d) = false
    exact beq_eq_false_iff_ne.mpr (fun heq => hne heq.symm)),
  (by
    intro cfg p v v' h
    cases hac : jsTruthy p.additionalCharges with
    | false =>
      rw [responseHashString_eq_joinPipe_noac cfg { p with status := v } hac,
        responseHashString_eq_joinPipe_noac cfg { p with status := v' } hac] at h
      exact joinPipe_inj1 [cfg.merchantSalt] v v' ["", "", "", "", "", jsGetD p.udf5, jsGetD p.udf4, jsGetD p.udf3, jsGetD p.udf2, jsGetD p.udf1, p.email, p.firstname, p.productinfo, p.amount, p.txnid, cfg.merchantKey] h
    | true =>
      rw [responseHashString_eq_joinPipe_ac cfg { p with status := v } hac,
        responseHashString_eq_joinPipe_ac cfg { p with status := v' } hac] at h
      exact joinPipe_inj1 [jsGetD p.additionalCharges, cfg.merchantSalt] v v' ["", "", "", "", "", jsGetD p.udf5, jsGetD p.udf4, jsGetD p.udf3, jsGetD p.udf2, jsGetD p.udf1, p.email, p.firstname, p.productinfo, p.amount, p.txnid, cfg.merchantKey] h),
  (by
    intro cfg p v v' h
    cases hac : jsTruthy p.additionalCharges with
    | false =>
      rw [responseHashString_eq_joinPipe_noac cfg { p with email := v } hac,
        responseHashString_eq_joinPipe_noac cfg { p with email := v' } hac] at h
      exact joinPipe_inj1 [cfg.merchantSalt, p.status, "", "", "", "", "", jsGetD p.udf5, jsGetD p.udf4, jsGetD p.udf3, jsGetD p.udf2, jsGetD p.udf1] v v' [p.firstname, p.productinfo, p.amount, p.txnid, cfg.merchantKey] h
    | true =>
      rw [responseHashString_eq_joinPipe_ac cfg { p with email := v } hac,
        responseHashString_eq_joinPipe_ac cfg { p with email := v' } hac] at h
      exact joinPipe_inj1 [jsGetD p.additionalCharges, cfg.merchantSalt, p.status, "", "", "", "", "", jsGetD p.udf5, jsGetD p.udf4, jsGetD p.udf3, jsGetD p.udf2, jsGetD p.udf1] v v' [p.firstname, p.productinfo, p.amount, p.txnid, cfg.merchantKey] h),
  (by
    intro cfg p v v' h
    cases hac : jsTruthy p.additionalCharges with
    | false =>
      rw [responseHashString_eq_joinPipe_noac cfg { p with firstname := v } hac,
        responseHashString_eq_joinPipe_noac cfg { p with firstname := v' } hac] at h
      exact joinPipe_inj1 [cfg.merchantSalt, p.status, "", "", "", "", "", jsGetD p.udf5, jsGetD p.udf4, jsGetD p.udf3, jsGetD p.udf2, jsGetD p.udf1, p.email] v v' [p.productinfo, p.amount, p.txnid, cfg.merchantKey] h
    | true =>
      rw [responseHashString_eq_joinPipe_ac cfg { p with firstname := v } hac,
        responseHashString_eq_joinPipe_ac cfg { p with firstname := v' } hac] at h
      exact joinPipe_inj1 [jsGetD p.additionalCharges, cfg.merchantSalt, p.status, "", "", "", "", "", jsGetD p.udf5, jsGetD p.udf4, jsGetD p.udf3, jsGetD p.udf2, jsGetD p.udf1, p.email] v v' [p.productinfo, p.amount, p.txnid, cfg.merchantKey] h),
  (by
    intro cfg p v v' h
    cases hac : jsTruthy p.additionalCharges with
    | false =>
      rw [responseHashString_eq_joinPipe_noac cfg { p with productinfo := v } hac,
        responseHashString_eq_joinPipe_noac cfg { p with productinfo := v' } hac] at h
      exact joinPipe_inj1 [cfg.merchantSalt, p.status, "", "", "", "", "", jsGetD p.udf5, jsGetD p.udf4, jsGetD p.udf3, jsGetD p.udf2, jsGetD p.udf1, p.email, p.firstname] v v' [p.amount, p.txnid, cfg.merchantKey] h
    | true =>
      rw [responseHashString_eq_joinPipe_ac cfg { p with productinfo := v } hac,
        responseHashString_eq_joinPipe_ac cfg { p with productinfo := v' } hac] at h
      exact joinPipe_inj1 [jsGetD p.additionalCharges, cfg.merchantSalt, p.status, "", "", "", "", "", jsGetD p.udf5, jsGetD p.udf4, jsGetD p.udf3, jsGetD p.udf2, jsGetD p.udf1, p.email, p.firstname] v v' [p.amount, p.txnid, cfg.merchantKey] h),
  (by
    intro cfg p v v' h
    cases hac : jsTruthy p.additionalCharges with
    | false =>
      rw [responseHashString_eq_joinPipe_noac cfg { p with amount := v } hac,
        responseHashString_eq_joinPipe_noac cfg { p with amount := v' } hac] at h
      exact joinPipe_inj1 [cfg.merchantSalt, p.status, "", "", "", "", "", jsGetD p.udf5, jsGetD p.udf4, jsGetD p.udf3, jsGetD p.udf2, jsGetD p.udf1, p.email, p.firstname, p.productinfo] v v' [p.txnid, cfg.merchantKey] h
    | true =>
      rw [responseHashString_eq_joinPipe_ac cfg { p with amount := v } hac,
        responseHashString_eq_joinPipe_ac cfg { p with amount := v' } hac] at h
      exact joinPipe_inj1 [jsGetD p.additionalCharges, cfg.merchantSalt, p.status, "", "", "", "", "", jsGetD p.udf5, jsGetD p.udf4, jsGetD p.udf3, jsGetD p.udf2, jsGetD p.udf1, p.email, p.firstname, p.productinfo] v v' [p.txnid, cfg.merchantKey] h),
  (by
    intro cfg p v v' h
    cases hac : jsTruthy p.additionalCharges with
    | false =>
      rw [responseHashString_eq_joinPipe_noac cfg { p with txnid := v } hac,
        responseHashString_eq_joinPipe_noac cfg { p with txnid := v' } hac] at h
      exact joinPipe_inj1 [cfg.merchantSalt, p.status, "", "", "", "", "", jsGetD p.udf5, jsGetD p.udf4, jsGetD p.udf3, jsGetD p.udf2, jsGetD p.udf1, p.email, p.firstname, p.productinfo, p.amount] v v' [cfg.merchantKey] h
    | true =>
      rw [responseHashString_eq_joinPipe_ac cfg { p with txnid := v } hac,
        responseHashString_eq_joinPipe_ac cfg { p with txnid := v' } hac] at h
      exact joinPipe_inj1 [jsGetD p.additionalCharges, cfg.merchantSalt, p.status, "", "", "", "", "", jsGetD p.udf5, jsGetD p.udf4, jsGetD p.udf3, jsGetD p.udf2, jsGetD p.udf1, p.email, p.firstname, p.productinfo, p.amount] v v' [cfg.merchantKey] h),
  (by
    intro cfg p v v' h
    cases hac : jsTruthy p.additionalCharges with
    | false =>
      rw [responseHashString_eq_joinPipe_noac cfg { p with udf1 := some v } hac,
        responseHashString_eq_joinPipe_noac cfg { p with udf1 := some v' } hac] at h
      exact joinPipe_inj1 [cfg.merchantSalt, p.status, "", "", "", "", "", jsGetD p.udf5, jsGetD p.udf4, jsGetD p.udf3, jsGetD p.udf2] v v' [p.email, p.firstname, p.productinfo, p.amount, p.txnid, cfg.merchantKey] h
    | true =>
      rw [responseHashString_eq_joinPipe_ac cfg { p with udf1 := some v } hac,
        responseHashString_eq_joinPipe_ac cfg { p with udf1 := some v' } hac] at h
      exact joinPipe_inj1 [jsGetD p.additionalCharges, cfg.merchantSalt, p.status, "", "", "", "", "", jsGetD p.udf5, jsGetD p.udf4, jsGetD p.udf3, jsGetD p.udf2] v v' [p.email, p.firstname, p.productinfo, p.amount, p.txnid, cfg.merchantKey] h),
  (by
    intro cfg p v v' h
    cases hac : jsTruthy p.additionalCharges with
    | false =>
      rw [responseHashString_eq_joinPipe_noac cfg { p with udf2 := some v } hac,
        responseHashString_eq_joinPipe_noac cfg { p with udf2 := some v' } hac] at h
      exact joinPipe_inj1 [cfg.merchantSalt, p.status, "", "", "", "", "", jsGetD p.udf5, jsGetD p.udf4, jsGetD p.udf3] v v' [jsGetD p.udf1, p.email, p.firstname, p.productinfo, p.amount, p.txnid, cfg.merchantKey] h
    | true =>
      rw [responseHashString_eq_joinPipe_ac cfg { p with udf2 := some v } hac,
        responseHashString_eq_joinPipe_ac cfg { p with udf2 := some v' } hac] at h
      exact joinPipe_inj1 [jsGetD p.additionalCharges, cfg.merchantSalt, p.status, "", "", "", "", "", jsGetD p.udf5, jsGetD p.udf4, jsGetD p.udf3] v v' [jsGetD p.udf1, p.email, p.firstname, p.productinfo, p.amount, p.txnid, cfg.merchantKey] h),
  (by
    intro cfg p v v' h
    cases hac : jsTruthy p.additionalCharges with
    | false =>
      rw [responseHashString_eq_joinPipe_noac cfg { p with udf3 := some v } hac,
        responseHashString_eq_joinPipe_noac cfg { p with udf3 := some v' } hac] at h
      exact joinPipe_inj1 [cfg.merchantSalt, p.status, "", "", "", "", "", jsGetD p.udf5, jsGetD p.udf4] v v' [jsGetD p.udf2, jsGetD p.udf1, p.email, p.firstname, p.productinfo, p.amount, p.txnid, cfg.merchantKey] h
    | true =>
      rw [responseHashString_eq_joinPipe_ac cfg { p with udf3 := some v } hac,
        responseHashString_eq_joinPipe_ac cfg { p with udf3 := some v' } hac] at h
      exact joinPipe_inj1 [jsGetD p.additionalCharges, cfg.merchantSalt, p.status, "", "", "", "", "", jsGetD p.udf5, jsGetD p.udf4] v v' [jsGetD p.udf2, jsGetD p.udf1, p.email, p.firstname, p.productinfo, p.amount, p.txnid, cfg.merchantKey] h),
  (by
    intro cfg p v v' h
    cases hac : jsTruthy p.additionalCharges with
    | false =>
      rw [responseHashString_eq_joinPipe_noac cfg { p with udf4 := some v } hac,
        responseHashString_eq_joinPipe_noac cfg { p with udf4 := some v' } hac] at h
      exact joinPipe_inj1 [cfg.merchantSalt, p.status, "", "", "", "", "", jsGetD p.udf5] v v' [jsGetD p.udf3, jsGetD p.udf2, jsGetD p.udf1, p.email, p.firstname, p.productinfo, p.amount, p.txnid, cfg.merchantKey] h
    | true =>
      rw [responseHashString_eq_joinPipe_ac cfg { p with udf4 := some v } hac,
        responseHashString_eq_joinPipe_ac cfg { p with udf4 := some v' } hac] at h
      exact joinPipe_inj1 [jsGetD p.additionalCharges, cfg.merchantSalt, p.status, "", "", "", "", "", jsGetD p.udf5] v v' [jsGetD p.udf3, jsGetD p.udf2, jsGetD p.udf1, p.email, p.firstname, p.productinfo, p.amount, p.txnid, cfg.merchantKey] h),
  (by
    intro cfg p v v' h
    cases hac : jsTruthy p.additionalCharges with
    | false =>
      rw [responseHashString_eq_joinPipe_noac cfg { p with udf5 := some v } hac,
        responseHashString_eq_joinPipe_noac cfg { p with udf5 := some v' } hac] at h
      exact joinPipe_inj1 [cfg.merchantSalt, p.status, "", "", "", "", ""] v v' [jsGetD p.udf4, jsGetD p.udf3, jsGetD p.udf2, jsGetD p.udf1, p.email, p.firstname, p.productinfo, p.amount, p.txnid, cfg.merchantKey] h
    | true =>
      rw [responseHashString_eq_joinPipe_ac cfg { p with udf5 := some v } hac,
        responseHashString_eq_joinPipe_ac cfg { p with udf5 := some v' } hac] at h
      exact joinPipe_inj1 [jsGetD p.additionalCharges, cfg.merchantSalt, p.status, "", "", "", "", ""] v v' [jsGetD p.udf4, jsGetD p.udf3, jsGetD p.udf2, jsGetD p.udf1, p.email, p.firstname, p.productinfo, p.amount, p.txnid, cfg.merchantKey] h),
  (by
    intro cfg p v v' hv hv' h
    have tv : jsTruthy ({ p with additionalCharges := some v } : ResponseHashParams).additionalCharges = true := by
      simp [jsTruthy, hv]
    have tv' : jsTruthy ({ p with additionalCharges := some v' } : ResponseHashParams).additionalCharges = true := by
      simp [jsTruthy, hv']
    rw [responseHashString_eq_joinPipe_ac cfg { p with additionalCharges := some v } tv,
      responseHashString_eq_joinPipe_ac cfg { p with additionalCharges := some v' } tv'] at h
    exact joinPipe_inj1 [] v v' [cfg.merchantSalt, p.status, "", "", "", "", "", jsGetD p.udf5, jsGetD p.udf4, jsGetD p.udf3, jsGetD p.udf2, jsGetD p.udf1, p.email, p.firstname, p.productinfo, p.amount, p.txnid, cfg.merchantKey] h)⟩

end Payu

namespace Payu

/-- A string commuting with the pipe separator consists solely of
pipes: `v ++ "|" = "|" ++ v` forces every character of `v` to be `|`. -/
theorem pipe_comm_all_list :
    ∀ l : List Char, l ++ ['|'] = '|' :: l → ∀ c ∈ l, c = '|' := by
  intro l
  induction l with
  | nil => intro _ c hc; cases hc
  | cons a t ih =>
    intro h c hc
    rw [List.cons_append] at h
    have ha : a = '|' := (List.cons.inj h).1
    have ht : t ++ ['|'] = '|' :: t := by
      have := (List.cons.inj h).2
      rw [ha] at this
      exact this
    cases hc with
    | head => exact ha
    | tail _ hmem => exact ih ht c hmem

theorem pipe_comm_all (v : String) (h : v ++ "|" = "|" ++ v) :
    ∀ c ∈ v.data, c = '|' := by
  have h2 := congrArg String.data h
  rw [str_data_append, str_data_append] at h2
  exact pipe_comm_all_list v.data h2

/-- Claim C2, amended.  `generatePaymentHash` returns exactly the lowercase
hex SHA-512 digest of the UTF-8 string
`key|txnid|amount|productinfo|firstname|email|udf1|udf2|udf3|udf4|udf5||||||salt`
(six literal pipes between udf5 and the salt; missing udf fields are
empty strings, never omitted); it is deterministic, and changing any
single field value — key, salt, txnid, amount, productinfo, firstname,
email, or a supplied udf value — changes the signed preimage string, so
the digest changes unless SHA-512 collides on two distinct preimages.
Moving a value between adjacent udf slots changes the preimage whenever
the value is not composed solely of pipe characters (the counterexample
shows the all-pipe value makes two slot assignments collide exactly). -/
theorem C2_generatePaymentHash_characterization :
    (∀ (cfg : PayuProviderConfig) (p : PaymentHashParams),
      generatePaymentHash cfg p = sha512hex (paymentHashString cfg p)) ∧
    (∀ (cfg : PayuProviderConfig) (p : PaymentHashParams),
      paymentHashString cfg p = specSignPreimage cfg p) ∧
    (∀ (cfg : PayuProviderConfig) (p q : PaymentHashParams),
      p = q → generatePaymentHash cfg p = generatePaymentHash cfg q) ∧
    (∀ (cfg : PayuProviderConfig) (p : PaymentHashParams) (v v' : String),
      paymentHashString { cfg with merchantKey := v } p =
        paymentHashString { cfg with merchantKey := v' } p → v = v') ∧
    (∀ (cfg : PayuProviderConfig) (p : PaymentHashParams) (v v' : String),
      paymentHashString { cfg with merchantSalt := v } p =
        paymentHashString { cfg with merchantSalt := v' } p → v = v') ∧
    (∀ (cfg : PayuProviderConfig) (p : PaymentHashParams) (v v' : String),
      paymentHashString cfg { p with txnid := v } =
        paymentHashString cfg { p with txnid := v' } → v = v') ∧
    (∀ (cfg : PayuProviderConfig) (p : PaymentHashParams) (v v' : String),
      paymentHashString cfg { p with amount := v } =
        paymentHashString cfg { p with amount := v' } → v = v') ∧
    (∀ (cfg : PayuProviderConfig) (p : PaymentHashParams) (v v' : String),
      paymentHashString cfg { p with productinfo := v } =
        paymentHashString cfg { p with productinfo := v' } → v = v') ∧
    (∀ (cfg : PayuProviderConfig) (p : PaymentHashParams) (v v' : String),
      paymentHashString cfg { p with firstname := v } =
        paymentHashString cfg { p with firstname := v' } → v = v') ∧
    (∀ (cfg : PayuProviderConfig) (p : PaymentHashParams) (v v' : String),
      paymentHashString cfg { p with email := v } =
        paymentHashString cfg { p with email := v' } → v = v') ∧
    (∀ (cfg : PayuProviderConfig) (p : PaymentHashParams) (v v' : String),
      paymentHashString cfg { p with udf1 := some v } =
        paymentHashString cfg { p with udf1 := some v' } → v = v') ∧
    (∀ (cfg : PayuProviderConfig) (p : PaymentHashParams) (v v' : String),
      paymentHashString cfg { p with udf2 := some v } =
        paymentHashString cfg { p with udf2 := some v' } → v = v') ∧
    (∀ (cfg : PayuProviderConfig) (p : PaymentHashParams) (v v' : String),
      paymentHashString cfg { p with udf3 := some v } =
        paymentHashString cfg { p with udf3 := some v' } → v = v') ∧
    (∀ (cfg : PayuProviderConfig) (p : PaymentHashParams) (v v' : String),
      paymentHashString cfg { p with udf4 := some v } =
        paymentHashString cfg { p with udf4 := some v' } → v = v') ∧
    (∀ (cfg : PayuProviderConfig) (p : PaymentHashParams) (v v' : String),
      paymentHashString cfg { p with udf5 := some v } =
        paymentHashString cfg { p with udf5 := some v' } → v = v') ∧
    (∀ (cfg : PayuProviderConfig) (p : PaymentHashParams) (v : String),
      v.data.any (fun c => !(c == '|')) = true →
      paymentHashString cfg { p with udf1 := some v, udf2 := some "" } ≠
        paymentHashString cfg { p with udf1 := some "", udf2 := some v }) :=
  ⟨(by
    intro cfg p
    exact sLower_sha512hex _),
  (by
    intro cfg p
    simp only [paymentHashString, specSignPreimage, joinPipe, pipe6,
      String.append_assoc, String.empty_append]),
  (fun cfg p q h => congrArg (generatePaymentHash cfg) h),
  (by
    intro cfg p v v' h
    rw [paymentHashString_eq_joinPipe { cfg with merchantKey := v } p,
      paymentHashString_eq_joinPipe { cfg with merchantKey := v' } p] at h
    exact joinPipe_inj1 [] v v' [p.txnid, p.amount, p.productinfo, p.firstname, p.email, jsGetD p.udf1, jsGetD p.udf2, jsGetD p.udf3, jsGetD p.udf4, jsGetD p.udf5, "", "", "", "", "", cfg.merchantSalt] h),
  (by
    intro cfg p v v' h
    rw [paymentHashString_eq_joinPipe { cfg with merchantSalt := v } p,
      paymentHashString_eq_joinPipe { cfg with merchantSalt := v' } p] at h
    exact joinPipe_inj1 [cfg.merchantKey, p.txnid, p.amount, p.productinfo, p.firstname, p.email, jsGetD p.udf1, jsGetD p.udf2, jsGetD p.udf3, jsGetD p.udf4, jsGetD p.udf5, "", "", "", "", ""] v v' [] h),
  (by
    intro cfg p v v' h
    rw [paymentHashString_eq_joinPipe cfg { p with txnid := v },
      paymentHashString_eq_joinPipe cfg { p with txnid := v' }] at h
    exact joinPipe_inj1 [cfg.merchantKey] v v' [p.amount, p.productinfo, p.firstname, p.email, jsGetD p.udf1, jsGetD p.udf2, jsGetD p.udf3, jsGetD p.udf4, jsGetD p.udf5, "", "", "", "", "", cfg.merchantSalt] h),
  (by
    intro cfg p v v' h
    rw [paymentHashString_eq_joinPipe cfg { p with amount := v },
      paymentHashString_eq_joinPipe cfg { p with amount := v' }] at h
    exact joinPipe_inj1 [cfg.merchantKey, p.txnid] v v' [p.productinfo, p.firstname, p.email, jsGetD p.udf1, jsGetD p.udf2, jsGetD p.udf3, jsGetD p.udf4, jsGetD p.udf5, "", "", "", "", "", cfg.merchantSalt] h),
  (by
    intro cfg p v v' h
    rw [paymentHashString_eq_joinPipe cfg { p with productinfo := v },
      paymentHashString_eq_joinPipe cfg { p with productinfo := v' }] at h
    exact joinPipe_inj1 [cfg.merchantKey, p.txnid, p.amount] v v' [p.firstname, p.email, jsGetD p.udf1, jsGetD p.udf2, jsGetD p.udf3, jsGetD p.udf4, jsGetD p.udf5, "", "", "", "", "", cfg.merchantSalt] h),
  (by
    intro cfg p v v' h
    rw [paymentHashString_eq_joinPipe cfg { p with firstname := v },
      paymentHashString_eq_joinPipe cfg { p with firstname := v' }] at h
    exact joinPipe_inj1 [cfg.merchantKey, p.txnid, p.amount, p.productinfo] v v' [p.email, jsGetD p.udf1, jsGetD p.udf2, jsGetD p.udf3, jsGetD p.udf4, jsGetD p.udf5, "", "", "", "", "", cfg.merchantSalt] h),
  (by
    intro cfg p v v' h
    rw [paymentHashString_eq_joinPipe cfg { p with email := v },
      paymentHashString_eq_joinPipe cfg { p with email := v' }] at h
    exact joinPipe_inj1 [cfg.merchantKey, p.txnid, p.amount, p.productinfo, p.firstname] v v' [jsGetD p.udf1, jsGetD p.udf2, jsGetD p.udf3, jsGetD p.udf4, jsGetD p.udf5, "", "", "", "", "", cfg.merchantSalt] h),
  (by
    intro cfg p v v' h
    rw [paymentHashString_eq_joinPipe cfg { p with udf1 := some v },
      paymentHashString_eq_joinPipe cfg { p with udf1 := some v' }] at h
    exact joinPipe_inj1 [cfg.merchantKey, p.txnid, p.amount, p.productinfo, p.firstname, p.email] v v' [jsGetD p.udf2, jsGetD p.udf3, jsGetD p.udf4, jsGetD p.udf5, "", "", "", "", "", cfg.merchantSalt] h),
  (by
    intro cfg p v v' h
    rw [paymentHashString_eq_joinPipe cfg { p with udf2 := some v },
      paymentHashString_eq_joinPipe cfg { p with udf2 := some v' }] at h
    exact joinPipe_inj1 [cfg.merchantKey, p.txnid, p.amount, p.productinfo, p.firstname, p.email, jsGetD p.udf1] v v' [jsGetD p.udf3, jsGetD p.udf4, jsGetD p.udf5, "", "", "", "", "", cfg.merchantSalt] h),
  (by
    intro cfg p v v' h
    rw [paymentHashString_eq_joinPipe cfg { p with udf3 := some v },
      paymentHashString_eq_joinPipe cfg { p with udf3 := some v' }] at h
    exact joinPipe_inj1 [cfg.merchantKey, p.txnid, p.amount, p.productinfo, p.firstname, p.email, jsGetD p.udf1, jsGetD p.udf2] v v' [jsGetD p.udf4, jsGetD p.udf5, "", "", "", "", "", cfg.merchantSalt] h),
  (by
    intro cfg p v v' h
    rw [paymentHashString_eq_joinPipe cfg { p with udf4 := some v },
      paymentHashString_eq_joinPipe cfg { p with udf4 := some v' }] at h
    exact joinPipe_inj1 [cfg.merchantKey, p.txnid, p.amount, p.productinfo, p.firstname, p.email, jsGetD p.udf1, jsGetD p.udf2, jsGetD p.udf3] v v' [jsGetD p.udf5, "", "", "", "", "", cfg.merchantSalt] h),
  (by
    intro cfg p v v' h
    rw [paymentHashString_eq_joinPipe cfg { p with udf5 := some v },
      paymentHashString_eq_joinPipe cfg { p with udf5 := some v' }] at h
    exact joinPipe_inj1 [cfg.merchantKey, p.txnid, p.amount, p.productinfo, p.firstname, p.email, jsGetD p.udf1, jsGetD p.udf2, jsGetD p.udf3, jsGetD p.udf4] v v' ["", "", "", "", "", cfg.merchantSalt] h),
  (by
    intro cfg p v hv h
    rw [paymentHashString_eq_joinPipe cfg { p with udf1 := some v, udf2 := some "" },
      paymentHashString_eq_joinPipe cfg { p with udf1 := some "", udf2 := some v }] at h
    have h2 := joinPipe_inj2 [cfg.merchantKey, p.txnid, p.amount, p.productinfo, p.firstname, p.email] v "" "" v [jsGetD p.udf3, jsGetD p.udf4, jsGetD p.udf5, "", "", "", "", "", cfg.merchantSalt] h
    rw [String.append_empty, String.empty_append] at h2
    have hall := pipe_comm_all v h2
    obtain ⟨c, hc, hcp⟩ := List.any_eq_true.mp hv
    rw [hall c hc] at hcp
    simp at hcp)⟩

end Payu

namespace Payu

/-- Claim C1, corrected by this counterexample: altering the single
optional field `additionalCharges` from absent to a supplied empty
string leaves `verifyResponseHash` returning `true` against the
unchanged digest (the `if (params.additionalCharges)` truthiness test
treats `""` as unsupplied), whereas the claim requires `false` whenever
any single field is altered. -/
theorem C1_counterexample :
    verifyResponseHash cfgT
      { rp0 with hash := sha512hex (responseHashString cfgT rp0) } = true ∧
    verifyResponseHash cfgT
      { rp0 with hash := sha512hex (responseHashString cfgT rp0),
                 additionalCharges := some "" } = true ∧
    (some "" : Option String) ≠ (none : Option String) := by
  refine ⟨?_, ?_, by decide⟩
  · show (sLower (sha512hex (responseHashString cfgT rp0)) ==
      sLower (sha512hex (responseHashString cfgT rp0))) = true
    exact beq_self_eq_true _
  · show (sLower (sha512hex (responseHashString cfgT rp0)) ==
      sLower (sha512hex (responseHashString cfgT rp0))) = true
    exact beq_self_eq_true _

/-- Witness for C1: at the concrete sandbox configuration and response
record, a claimed digest of `"00"` is rejected. -/
theorem C1_witness : verifyResponseHash cfgT { rp0 with hash := "00" } = false :=
  C1_verifyResponse_characterization.2.2.1 cfgT rp0 "00" (by decide)

/-- Claim C2, corrected by this counterexample: moving the value `"|"`
from udf1 to udf2 produces the identical signing preimage, hence the
identical digest, while the claim says any such move changes the
digest; the two parameter records are distinct. -/
theorem C2_counterexample :
    generatePaymentHash cfgT { pp0 with udf1 := some "|" } =
      generatePaymentHash cfgT { pp0 with udf2 := some "|" } ∧
    ({ pp0 with udf1 := some "|" } : PaymentHashParams) ≠
      { pp0 with udf2 := some "|" } := by
  constructor
  · have h : paymentHashString cfgT { pp0 with udf1 := some "|" } =
        paymentHashString cfgT { pp0 with udf2 := some "|" } := by decide
    unfold generatePaymentHash
    rw [h]
  · decide

/-- Witness for C2: moving the non-pipe value `"a"` between adjacent udf
slots changes the signing preimage at the concrete fixture. -/
theorem C2_witness :
    paymentHashString cfgT { pp0 with udf1 := some "a", udf2 := some "" } ≠
      paymentHashString cfgT { pp0 with udf1 := some "", udf2 := some "a" } :=
  C2_generatePaymentHash_characterization.2.2.2.2.2.2.2.2.2.2.2.2.2.2.2
    cfgT pp0 "a" (by decide)

/-- Claim C3: a webhook whose claimed hash fails reverse-hash
verification classifies to `not_supported` regardless of its status
value, and the result carries no session data (the pure classifier
mutates no session state; rejection is log-only). -/
theorem C3_tampered_webhook_rejected (cfg : PayuProviderConfig)
    (p : WebhookPayload) (w : KV) (hn : normalizeWebhook p = some w)
    (hreq : requiredPresent w = true)
    (hv : verifyResponseHash cfg (webhookVerifyParams w) = false) :
    getWebhookActionAndData cfg p = ⟨.not_supported, none⟩ := by
  unfold getWebhookActionAndData
  rw [hn]
  simp [hreq, hv]

/-- Witness for C3: a concrete success-status webhook whose hash field
is the tampered value `"deadbeefdeadbeef"` is rejected. -/
theorem C3_witness : getWebhookActionAndData cfgT p3 = ⟨.not_supported, none⟩ :=
  C3_tampered_webhook_rejected cfgT p3 w3 rfl (by decide) (by decide)

/-- Claim C4: a session already `authorized` or `captured`
short-circuits: `authorizePayment` returns `AUTHORIZED` with the
session data unchanged, the result does not depend on the gateway (no
network call is observable), and a second invocation on the returned
data gives the same result. -/
theorem C4_authorize_idempotent (input : PayuSessionData)
    (gw gw' : String → Except String PayuVerifyResponse)
    (h : input.status = "authorized" ∨ input.status = "captured") :
    authorizePayment gw input = .ok ⟨.authorized, input⟩ ∧
    authorizePayment gw' input = authorizePayment gw input ∧
    (∀ out : AuthorizeOutput, authorizePayment gw input = .ok out →
      authorizePayment gw' out.data = .ok ⟨.authorized, out.data⟩) := by
  have hcond : (input.status == "authorized" || input.status == "captured") = true := by
    rcases h with h | h <;> simp [h]
  have h1 : authorizePayment gw input = .ok ⟨.authorized, input⟩ := by
    simp [authorizePayment, hcond]
  have h2 : authorizePayment gw' input = .ok ⟨.authorized, input⟩ := by
    simp [authorizePayment, hcond]
  refine ⟨h1, h2.trans h1.symm, ?_⟩
  intro out hout
  rw [h1] at hout
  have hout2 : (⟨.authorized, input⟩ : AuthorizeOutput) = out := Except.ok.inj hout
  rw [← hout2]
  exact h2

/-- Witness for C4: the concrete authorized session fixture returns
`AUTHORIZED` unchanged under a gateway that would fail, and the result
is identical under a gateway that would succeed. -/
theorem C4_witness :
    authorizePayment gwErr sessAuth = .ok ⟨.authorized, sessAuth⟩ ∧
    authorizePayment gwOk1 sessAuth = authorizePayment gwErr sessAuth :=
  ⟨(C4_authorize_idempotent sessAuth gwErr gwOk1 (Or.inl rfl)).1,
   (C4_authorize_idempotent sessAuth gwErr gwOk1 (Or.inl rfl)).2.1⟩

/-- Claim C5, amended.  For a `pending` session, `authorizePayment`
maps the gateway outcome exactly: a response with API status 1 whose
`transaction_details` entry for the session txnid reports `"success"`
returns `AUTHORIZED` with the session transitioned to `"authorized"`
(recording the gateway transaction id and full response); any other
response — API status other than 1, no entry for the txnid, or an
entry with a non-success status — returns `ERROR` with the session
transitioned to `"failed"`; so after any gateway response the session
is never left `"pending"`.  But when the gateway call throws (network
error), the error propagates unchanged (the method re-throws) and no
session transition to `"failed"` is returned. -/
theorem C5_authorize_resolves_pending (input : PayuSessionData)
    (gw : String → Except String PayuVerifyResponse)
    (hp : input.status = "pending") :
    (∀ e, gw input.txnid = .error e → authorizePayment gw input = .error e) ∧
    (∀ resp txn, gw input.txnid = .ok resp → resp.status = 1 →
      jsIndex resp.transaction_details input.txnid = some txn →
      txn.status = "success" →
      authorizePayment gw input = .ok ⟨.authorized,
        { input with
          status := "authorized"
          payuTransactionId := some txn.mihpayid
          payuResponse := some txn }⟩) ∧
    (∀ resp, gw input.txnid = .ok resp → resp.status ≠ 1 →
      authorizePayment gw input =
        .ok ⟨.error, { input with status := "failed" }⟩) ∧
    (∀ resp, gw input.txnid = .ok resp → resp.status = 1 →
      jsIndex resp.transaction_details input.txnid = none →
      authorizePayment gw input =
        .ok ⟨.error, { input with status := "failed" }⟩) ∧
    (∀ resp txn, gw input.txnid = .ok resp → resp.status = 1 →
      jsIndex resp.transaction_details input.txnid = some txn →
      txn.status ≠ "success" →
      authorizePayment gw input =
        .ok ⟨.error, { input with status := "failed" }⟩) ∧
    (∀ resp, gw input.txnid = .ok resp → ∃ out : AuthorizeOutput,
      authorizePayment gw input = .ok out ∧
      ((out.status = .authorized ∧ out.data.status = "authorized") ∨
       (out.status = .error ∧ out.data.status = "failed")) ∧
      out.data.status ≠ "pending") := by
  have hcond : (input.status == "authorized" || input.status == "captured") = false := by
    simp [hp]
  refine ⟨?_, ?_, ?_, ?_, ?_, ?_⟩
  · intro e he
    simp [authorizePayment, hcond, he]
  · intro resp txn hresp h1 hj ht
    simp [authorizePayment, hcond, hresp, h1, hj, ht]
  · intro resp hresp hne
    have h1 : (resp.status == 1) = false := beq_eq_false_iff_ne.mpr hne
    simp [authorizePayment, hcond, hresp, h1]
  · intro resp hresp h1 hj
    simp [authorizePayment, hcond, hresp, h1, hj]
  · intro resp txn hresp h1 hj htne
    have h2 : (txn.status == "success") = false := beq_eq_false_iff_ne.mpr htne
    simp [authorizePayment, hcond, hresp, h1, hj, h2]
  · intro resp hresp
    cases h1 : resp.status == 1 with
    | false =>
      refine ⟨⟨.error, { input with status := "failed" }⟩, ?_, ?_, ?_⟩
      · simp [authorizePayment, hcond, hresp, h1]
      · right
        exact ⟨rfl, rfl⟩
      · simp
    | true =>
      cases hj : jsIndex resp.transaction_details input.txnid with
      | none =>
        refine ⟨⟨.error, { input with status := "failed" }⟩, ?_, ?_, ?_⟩
        · simp [authorizePayment, hcond, hresp, h1, hj]
        · right
          exact ⟨rfl, rfl⟩
        · simp
      | some txn =>
        cases h2 : txn.status == "success" with
        | false =>
          refine ⟨⟨.error, { input with status := "failed" }⟩, ?_, ?_, ?_⟩
          · simp [authorizePayment, hcond, hresp, h1, hj, h2]
          · right
            exact ⟨rfl, rfl⟩
          · simp
        | true =>
          refine ⟨⟨.authorized,
            { input with
              status := "authorized"
              payuTransactionId := some txn.mihpayid
              payuResponse := some txn }⟩, ?_, ?_, ?_⟩
          · simp [authorizePayment, hcond, hresp, h1, hj, h2]
          · left
            exact ⟨rfl, rfl⟩
          · simp

/-- Claim C5, counterexample: on a network error the method re-throws —
the concrete pending session yields `Except.error`, not a returned
session in `failed`. -/
theorem C5_counterexample :
    sessPend.status = "pending" ∧
    authorizePayment gwErr sessPend = Except.error "network error" :=
  ⟨rfl, rfl⟩

/-- Witness for C5: for the concrete pending session a gateway success
response authorizes it (recording the mihpayid), a status-0 response
transitions it to failed, and a gateway timeout error propagates
unchanged. -/
theorem C5_witness :
    authorizePayment gwOk1 sessPend = .ok ⟨.authorized,
      { sessPend with
        status := "authorized"
        payuTransactionId := some "403993715531"
        payuResponse := some ⟨"403993715531", "success"⟩ }⟩ ∧
    authorizePayment gwFail0 sessPend =
      .ok ⟨.error, { sessPend with status := "failed" }⟩ ∧
    authorizePayment gwTimeout sessPend =
      Except.error "PayU API request timed out after 30000ms" :=
  ⟨(C5_authorize_resolves_pending sessPend gwOk1 rfl).2.1
      ⟨1, [("TXN_1_ab", ⟨"403993715531", "success"⟩)]⟩
      ⟨"403993715531", "success"⟩ rfl rfl rfl rfl,
   (C5_authorize_resolves_pending sessPend gwFail0 rfl).2.2.1 ⟨0, []⟩ rfl
      (by decide),
   (C5_authorize_resolves_pending sessPend gwTimeout rfl).1 _ rfl⟩

end Payu

namespace Payu

/-- Claim C6: on a webhook that passes field validation and hash
verification, classification is by lowercased status — `success` gives
`authorized`, `failure`/`failed` give `failed` (both carrying the
session correlation id and parsed amount), `refund`/`refunded` and
`dispute`/`chargeback` are acknowledged or flagged with no session
data, and any other status is unsupported; the correlation id is the
udf1 value when present (non-empty), else the txnid. -/
theorem C6_webhook_classification (cfg : PayuProviderConfig)
    (p : WebhookPayload) (w : KV) (hn : normalizeWebhook p = some w)
    (hreq : requiredPresent w = true)
    (hv : verifyResponseHash cfg (webhookVerifyParams w) = true) :
    (jsTruthy (kvGet w "udf1") = true →
      webhookSessionId w = jsGetD (kvGet w "udf1")) ∧
    (jsTruthy (kvGet w "udf1") = false →
      webhookSessionId w = jsGetD (kvGet w "txnid")) ∧
    (sLower (jsTemplate (kvGet w "status")) = "success" →
      getWebhookActionAndData cfg p =
        ⟨.authorized, some ⟨webhookSessionId w, webhookAmount w⟩⟩) ∧
    (sLower (jsTemplate (kvGet w "status")) = "failure" ∨
        sLower (jsTemplate (kvGet w "status")) = "failed" →
      getWebhookActionAndData cfg p =
        ⟨.failed, some ⟨webhookSessionId w, webhookAmount w⟩⟩) ∧
    (sLower (jsTemplate (kvGet w "status")) = "refund" ∨
        sLower (jsTemplate (kvGet w "status")) = "refunded" →
      getWebhookActionAndData cfg p = ⟨.not_supported, none⟩) ∧
    (sLower (jsTemplate (kvGet w "status")) = "dispute" ∨
        sLower (jsTemplate (kvGet w "status")) = "chargeback" →
      getWebhookActionAndData cfg p = ⟨.not_supported, none⟩) ∧
    (sLower (jsTemplate (kvGet w "status")) ∉
        (["success", "failure", "failed", "refund", "refunded", "dispute",
          "chargeback"] : List String) →
      getWebhookActionAndData cfg p = ⟨.not_supported, none⟩) := by
  have hbase : getWebhookActionAndData cfg p = classifyWebhook w := by
    unfold getWebhookActionAndData
    rw [hn]
    simp [hreq, hv]
  refine ⟨?_, ?_, ?_, ?_, ?_, ?_, ?_⟩
  · intro h
    simp [webhookSessionId, jsOrElse, h]
  · intro h
    simp [webhookSessionId, jsOrElse, h]
  · intro h
    rw [hbase]
    simp [classifyWebhook, h]
  · intro h
    rw [hbase]
    rcases h with h | h <;> simp [classifyWebhook, h]
  · intro h
    rw [hbase]
    rcases h with h | h <;> simp [classifyWebhook, h]
  · intro h
    rw [hbase]
    rcases h with h | h <;> simp [classifyWebhook, h]
  · intro h
    rw [hbase]
    simp only [List.mem_cons, List.not_mem_nil, or_false, not_or] at h
    obtain ⟨h1, h2, h3, h4, h5, h6, h7⟩ := h
    simp [classifyWebhook, beq_eq_false_iff_ne.mpr h1,
      beq_eq_false_iff_ne.mpr h2, beq_eq_false_iff_ne.mpr h3,
      beq_eq_false_iff_ne.mpr h4, beq_eq_false_iff_ne.mpr h5,
      beq_eq_false_iff_ne.mpr h6, beq_eq_false_iff_ne.mpr h7]

/-- Witness for C6: a concrete verified success webhook with
udf1 = `"sess_abc"` classifies to `authorized` with session correlation
id `"sess_abc"` (not the txnid) and amount 500. -/
theorem C6_witness :
    getWebhookActionAndData cfgT p6 =
      ⟨.authorized, some ⟨"sess_abc", some (500 : ℚ)⟩⟩ := by
  have hv : verifyResponseHash cfgT (webhookVerifyParams w6) = true := by
    show (sLower (sha512hex (responseHashString cfgT rp6)) ==
      sLower (sha512hex (responseHashString cfgT rp6))) = true
    exact beq_self_eq_true _
  have h := (C6_webhook_classification cfgT p6 w6 rfl (by decide) hv).2.2.1
    (by decide)
  rw [h]
  decide

/-- Claim C7: a refund on a session with no recorded gateway
transaction id (`payuTransactionId` absent or empty) fails with the
precondition Medusa error, and the result does not depend on the clock
or the gateway — no network call is observable and no session data is
returned. -/
theorem C7_refund_precondition (now : Nat)
    (gw : String → String → String → Except String PayuRefundResponse)
    (data : PayuSessionData) (amount : ℚ)
    (h : jsTruthy data.payuTransactionId = false) :
    refundPayment now gw data amount = .error ⟨.unexpectedState,
      "No PayU transaction ID (mihpayid) found. This payment may not have been fully captured or the session data is incomplete."⟩ ∧
    (∀ (nowB : Nat)
      (gwB : String → String → String → Except String PayuRefundResponse),
      refundPayment nowB gwB data amount = refundPayment now gw data amount) := by
  constructor
  · simp [refundPayment, h]
  · intro nowB gwB
    simp [refundPayment, h]

/-- Witness for C7: the concrete authorized session fixture (which was
never captured, so has no `payuTransactionId`) is rejected with the
precondition error. -/
theorem C7_witness :
    refundPayment 1700000000000 gwRef sessAuth 100 = .error ⟨.unexpectedState,
      "No PayU transaction ID (mihpayid) found. This payment may not have been fully captured or the session data is incomplete."⟩ :=
  (C7_refund_precondition 1700000000000 gwRef sessAuth 100 (by decide)).1

/-- Claim C8 (code bug): the webhook amount is parsed with
`new BigNumber(parseFloat(webhook.amount))` — a binary64 float parse —
so for the verified success webhook with the decimal amount string
`"9007199254740993"` (2^53 + 1) the output amount is the rounded double
9007199254740992, which differs from the exact decimal value the spec
requires to be carried. -/
theorem C8_float_amount_precision_loss :
    getWebhookActionAndData cfgT p8 =
      ⟨.authorized, some ⟨"TXN_1_ab", some (9007199254740992 : ℚ)⟩⟩ ∧
    exactDecimal "9007199254740993" = some (9007199254740993 : ℚ) ∧
    (9007199254740992 : ℚ) ≠ (9007199254740993 : ℚ) := by
  have hv : verifyResponseHash cfgT (webhookVerifyParams w8) = true := by
    show (sLower (sha512hex (responseHashString cfgT rp8)) ==
      sLower (sha512hex (responseHashString cfgT rp8))) = true
    exact beq_self_eq_true _
  have hbase : getWebhookActionAndData cfgT p8 = classifyWebhook w8 := by
    unfold getWebhookActionAndData
    rw [show normalizeWebhook p8 = some w8 from rfl]
    simp [hv, (by decide : requiredPresent w8 = true)]
  refine ⟨?_, by decide, by decide⟩
  rw [hbase]
  decide

/-- Claim C10: the webhook handler is total over every payload shape —
its action is always one of `authorized`, `failed`, `not_supported`;
an unrecognizable payload structure and a payload missing txnid,
status, or hash both yield `not_supported` with no data (the source's
catch-all exception handler returns the same). -/
theorem C10_webhook_total (cfg : PayuProviderConfig) (p : WebhookPayload) :
    ((getWebhookActionAndData cfg p).action = .authorized ∨
     (getWebhookActionAndData cfg p).action = .failed ∨
     (getWebhookActionAndData cfg p).action = .not_supported) ∧
    (normalizeWebhook p = none →
      getWebhookActionAndData cfg p = ⟨.not_supported, none⟩) ∧
    (∀ w, normalizeWebhook p = some w → requiredPresent w = false →
      getWebhookActionAndData cfg p = ⟨.not_supported, none⟩) := by
  refine ⟨?_, ?_, ?_⟩
  · unfold getWebhookActionAndData
    cases hn : normalizeWebhook p with
    | none => simp
    | some w =>
      cases hreq : requiredPresent w with
      | false => simp [hreq]
      | true =>
        cases hv : verifyResponseHash cfg (webhookVerifyParams w) with
        | false => simp [hreq, hv]
        | true =>
          simp only [hreq, hv, Bool.not_true, Bool.false_eq_true, if_false,
            classifyWebhook]
          split_ifs <;> simp
  · intro h
    simp [getWebhookActionAndData, h]
  · intro w hw hreq
    simp [getWebhookActionAndData, hw, hreq]

/-- Witness for C10: the empty payload (no raw body, no nested object,
no top-level fields) classifies to `not_supported`. -/
theorem C10_witness :
    getWebhookActionAndData cfgT ⟨none, none, []⟩ = ⟨.not_supported, none⟩ :=
  (C10_webhook_total cfgT ⟨none, none, []⟩).2.1 rfl

end Payu

namespace Payu

/-- Claim C9, amended.  `initiatePayment` resolves email, firstname and
phone through the fallback order *platform customer context first, then
explicit payload values* (for phone: customer phone → customer billing
address phone → payload shipping_address_phone → payload phone); if any
of the three resolves to nothing truthy, it fails — before the redirect
URLs are read and before any gateway interaction (the function performs
no gateway call at all) — with the corresponding validation error; on
success the resolved values are the ones carried in the session. -/
theorem C9_initiate_resolution (cfg : PayuProviderConfig) (env : EnvVars)
    (tx : String) (input : InitiateInput) :
    (jsTruthy (resolvedEmail input) = false →
      initiatePayment cfg env tx input = .error
        "Customer email is required for payment processing. Pass email in data payload or ensure customer is logged in.") ∧
    (jsTruthy (resolvedEmail input) = true →
      jsTruthy (resolvedFirstname input) = false →
      initiatePayment cfg env tx input = .error
        "Customer name is required for payment processing. Pass firstname in data payload.") ∧
    (jsTruthy (resolvedEmail input) = true →
      jsTruthy (resolvedFirstname input) = true →
      jsTruthy (resolvedPhone input) = false →
      initiatePayment cfg env tx input = .error
        "Phone number is required for payment processing. Pass phone in data payload.") ∧
    (∀ out : InitiateOutput, initiatePayment cfg env tx input = .ok out →
      out.data.email = jsGetD (resolvedEmail input) ∧
      out.data.firstname = jsGetD (resolvedFirstname input) ∧
      out.data.phone = jsGetD (resolvedPhone input) ∧
      out.data.status = "pending") := by
  refine ⟨?_, ?_, ?_, ?_⟩
  · intro h
    simp [initiatePayment, h]
  · intro h1 h2
    simp [initiatePayment, h1, h2]
  · intro h1 h2 h3
    simp [initiatePayment, h1, h2, h3]
  · intro out hout
    unfold initiatePayment at hout
    cases h1 : jsTruthy (resolvedEmail input) with
    | false => simp [h1] at hout
    | true =>
      cases h2 : jsTruthy (resolvedFirstname input) with
      | false => simp [h1, h2] at hout
      | true =>
        cases h3 : jsTruthy (resolvedPhone input) with
        | false => simp [h1, h2, h3] at hout
        | true =>
          cases h4 : (!(jsTruthy env.storefrontUrl)
              || !(jsTruthy env.payuRedirectUrl)
              || !(jsTruthy env.payuRedirectFailureUrl)) with
          | true => simp [h1, h2, h3, h4] at hout
          | false =>
            simp only [h1, h2, h3, h4, Bool.not_true, Bool.false_eq_true,
              if_false, if_true, Except.ok.injEq] at hout
            rw [← hout]
            exact ⟨rfl, rfl, rfl, rfl⟩

/-- Claim C9, corrected by this counterexample: with both a
customer-context email and a payload email present, the session email is
the customer value, not the payload value required by the claimed
payload-first fallback order. -/
theorem C9_counterexample :
    specResolvedEmail in9 = some "p@x.com" ∧
    (initiatePayment cfgT env9 "TXN_1_ab" in9).toOption.map
      (fun o => o.data.email) = some "c@x.com" ∧
    ("c@x.com" : String) ≠ "p@x.com" := by
  refine ⟨by decide, ?_, by decide⟩
  rfl

/-- Witness for C9: with no email in the customer context or the
payload, initiation fails with the email validation error. -/
theorem C9_witness :
    initiatePayment cfgT env9 "TXN_1_ab" in9b = .error
      "Customer email is required for payment processing. Pass email in data payload or ensure customer is logged in." :=
  (C9_initiate_resolution cfgT env9 "TXN_1_ab" in9b).1 (by decide)

end Payu
